import Mathlib

/-
  Verification development for the `pp` translation scripts:
    scripts/extract_remaining_todos.py
    scripts/import_translations.py
    scripts/translate_all.py

  Python strings are modelled as `List Char` (a Python `str` is a sequence of
  code points).  JSON catalog values are modelled by `PyVal`: the scripts only
  ever test `isinstance(value, str)`, so non-string JSON values are opaque.
  Python dicts are modelled as association lists in insertion order; `d[k] = v`
  is `dictSet`, which updates the first matching key in place and appends a
  fresh key at the end, exactly as a Python dict does.
-/

set_option maxRecDepth 8000

/-- A JSON catalog value as seen by the scripts: either a Python string or some
non-string JSON value (opaque, since the scripts only test `isinstance(..., str)`
and otherwise pass such values through untouched). -/
inductive PyVal where
  | str (s : List Char)
  | other (n : Nat)
  deriving DecidableEq, Repr

instance : Inhabited PyVal := ⟨.other 0⟩

/-- The sentinel literal `'[TODO: Translate]'` used in `startswith` checks
(17 characters, no trailing space), from all three scripts. -/
def TODO17 : List Char := "[TODO: Translate]".toList

/-- The pattern `'[TODO: Translate] '` (with trailing space, 18 characters)
passed to `str.replace` in all three scripts. -/
def TODO_SP : List Char := "[TODO: Translate] ".toList

/-- Fuelled model of Python `value.replace('[TODO: Translate] ', '')`:
a single left-to-right pass that removes every non-overlapping occurrence of
the pattern.  The fuel only serves to make the recursion structural; each step
consumes at least one character, so fuel `s.length` always suffices. -/
def removeMarkerF : Nat → List Char → List Char
  | 0, s => s
  | n + 1, s =>
    if TODO_SP <+: s then removeMarkerF n (s.drop TODO_SP.length)
    else
      match s with
      | [] => []
      | c :: cs => c :: removeMarkerF n cs

/-- Python `s.replace('[TODO: Translate] ', '')`. -/
def removeMarker (s : List Char) : List Char := removeMarkerF s.length s

/-- The apostrophe character (written via its code point to keep string
literals in this file free of quote characters). -/
def aposC : Char := Char.ofNat 39

def TRANSLATIONS : List (List Char × List Char) := [
  ("加载".toList, "Load".toList),
  ("已加载".toList, "Loaded".toList),
  ("加载中".toList, "Loading".toList),
  ("加载完成".toList, "Loading complete".toList),
  ("加载失败".toList, "Failed to load".toList),
  ("保存".toList, "Save".toList),
  ("已保存".toList, "Saved".toList),
  ("保存中".toList, "Saving".toList),
  ("保存失败".toList, "Failed to save".toList),
  ("删除".toList, "Delete".toList),
  ("已删除".toList, "Deleted".toList),
  ("删除失败".toList, "Failed to delete".toList),
  ("添加".toList, "Add".toList),
  ("已添加".toList, "Added".toList),
  ("编辑".toList, "Edit".toList),
  ("已编辑".toList, "Edited".toList),
  ("取消".toList, "Cancel".toList),
  ("确认".toList, "Confirm".toList),
  ("确定".toList, "OK".toList),
  ("关闭".toList, "close".toList),
  ("打开".toList, "Open".toList),
  ("刷新".toList, "Refresh".toList),
  ("重置".toList, "Reset".toList),
  ("清空".toList, "Clear All".toList),
  ("清除".toList, "Clear".toList),
  ("复制".toList, "Copy".toList),
  ("已复制".toList, "Copied".toList),
  ("粘贴".toList, "Paste".toList),
  ("搜索".toList, "search".toList),
  ("过滤".toList, "Filter".toList),
  ("排序".toList, "Sort".toList),
  ("导入".toList, "Import".toList),
  ("导出".toList, "Export".toList),
  ("上传".toList, "Upload".toList),
  ("下载".toList, "Download".toList),
  ("发送".toList, "Send".toList),
  ("创建".toList, "Create".toList),
  ("更新".toList, "Update".toList),
  ("修改".toList, "Modify".toList),
  ("查看".toList, "View".toList),
  ("选择".toList, "Select".toList),
  ("输入".toList, "Input".toList),
  ("输出".toList, "Output".toList),
  ("成功".toList, "Success".toList),
  ("失败".toList, "Failed".toList),
  ("错误".toList, "Error".toList),
  ("警告".toList, "Warning".toList),
  ("提示".toList, "Tips".toList),
  ("信息".toList, "Information".toList),
  ("详情".toList, "Details".toList),
  ("帮助".toList, "Help".toList),
  ("处理中".toList, "Processing".toList),
  ("已完成".toList, "Completed".toList),
  ("进行中".toList, "In Progress".toList),
  ("等待".toList, "Waiting".toList),
  ("暂无".toList, "No".toList),
  ("未知".toList, "Unknown".toList),
  ("其他".toList, "Other".toList),
  ("正常".toList, "Normal".toList),
  ("异常".toList, "Abnormal".toList),
  ("启用".toList, "Enable".toList),
  ("禁用".toList, "Disable".toList),
  ("设置".toList, "Settings".toList),
  ("配置".toList, "Configure".toList),
  ("选项".toList, "Options".toList),
  ("关于".toList, "About".toList),
  ("版本".toList, "Version".toList),
  ("检查".toList, "Check".toList),
  ("列表".toList, "List".toList),
  ("表格".toList, "Table".toList),
  ("图表".toList, "Chart".toList),
  ("视图".toList, "View".toList),
  ("模式".toList, "Mode".toList),
  ("类型".toList, "Type".toList),
  ("状态".toList, "Status".toList),
  ("名称".toList, "Name".toList),
  ("描述".toList, "Description".toList),
  ("标签".toList, "Tags".toList),
  ("分类".toList, "Category".toList),
  ("管理".toList, "Manage".toList),
  ("操作".toList, "Actions".toList),
  ("工具".toList, "Tools".toList),
  ("功能".toList, "features".toList),
  ("请输入".toList, "Please enter".toList),
  ("输入框".toList, "Input box".toList),
  ("文本".toList, "Text".toList),
  ("内容".toList, "content".toList),
  ("消息".toList, "Message".toList),
  ("数据".toList, "Data".toList),
  ("文件".toList, "File".toList),
  ("图片".toList, "Image".toList),
  ("返回".toList, "Back".toList),
  ("下一步".toList, "Next".toList),
  ("上一步".toList, "Previous".toList),
  ("完成".toList, "Complete".toList),
  ("跳过".toList, "Skip".toList),
  ("继续".toList, "Continue".toList),
  ("展开".toList, "Expand".toList),
  ("收起".toList, "Collapse".toList),
  ("显示".toList, "display".toList),
  ("隐藏".toList, "Hide".toList),
  ("全部".toList, "All".toList),
  ("更多".toList, "More".toList),
  ("左侧".toList, "Left".toList),
  ("右侧".toList, "Right".toList),
  ("顶部".toList, "Top".toList),
  ("底部".toList, "Bottom".toList),
  ("时间".toList, "Time".toList),
  ("日期".toList, "Date".toList),
  ("创建时间".toList, "Created at".toList),
  ("更新时间".toList, "Updated at".toList),
  ("最近".toList, "Recent".toList),
  ("历史".toList, "History".toList),
  ("小时".toList, "hour".toList),
  ("天".toList, "day".toList),
  ("分钟".toList, "minute".toList),
  ("秒".toList, "second".toList),
  ("小时前".toList, "hours ago".toList),
  ("天前".toList, "days ago".toList),
  ("模型".toList, "Model".toList),
  ("提供商".toList, "Provider".toList),
  ("凭证".toList, "Credentials".toList),
  ("API".toList, "API".toList),
  ("密钥".toList, "Key".toList),
  ("令牌".toList, "Token".toList),
  ("认证".toList, "Authentication".toList),
  ("请求".toList, "Request".toList),
  ("响应".toList, "Response".toList),
  ("延迟".toList, "Latency".toList),
  ("加载差异失败".toList, "Failed to load diff".toList),
  ("配置面板".toList, "Configuration panel".toList),
  ("差异摘要".toList, "Diff summary".toList),
  ("对比".toList, "Compare".toList),
  ("并排".toList, "Side by side".toList),
  ("统一".toList, "Unified".toList),
  ("显示差异".toList, "Show differences".toList),
  ("显示全部".toList, "Show all".toList),
  ("忽略空白".toList, "Ignore whitespace".toList),
  ("请求差异".toList, "Request diff".toList),
  ("响应差异".toList, "Response diff".toList),
  ("元数据差异".toList, "Metadata diff".toList),
  ("无差异".toList, "No differences".toList),
  ("两个".toList, "Two".toList),
  ("完全相同".toList, "are identical".toList),
  ("修改的字段".toList, "Modified fields".toList),
  ("删除的字段".toList, "Deleted fields".toList),
  ("新增的字段".toList, "Added fields".toList),
  ("修改的消息".toList, "Modified messages".toList),
  ("删除的消息".toList, "Deleted messages".toList),
  ("新增的消息".toList, "Added messages".toList),
  ("不自动请求权限".toList, "Don".toList ++ [aposC] ++ "t auto-request permissions".toList),
  ("让用户手动控制".toList, "Let user control manually".toList),
  ("暂无数据".toList, "No data".toList),
  ("尝试调整过滤条件".toList, "Try adjusting filter conditions".toList),
  ("或".toList, "or".toList),
  ("清除过滤".toList, "clear filters".toList),
  ("查看所有记录".toList, "to view all records".toList),
  ("加载更多数据".toList, "Load more data".toList),
  ("已加载全部".toList, "All loaded".toList),
  ("条记录".toList, "records".toList),
  ("点击查看详情".toList, "Click to view details".toList),
  ("双击复制".toList, "Double-click to copy".toList),
  ("内容预览".toList, "Content preview".toList),
  ("响应内容预览".toList, "Response content preview".toList),
  ("已复制请求".toList, "Request copied".toList),
  ("复制为".toList, "Copy as".toList),
  ("导出为".toList, "Export as".toList),
  ("正在获取统计数据".toList, "Fetching statistics".toList),
  ("获取到的基础统计数据".toList, "Retrieved basic statistics".toList),
  ("个模型未显示".toList, "models not shown".toList),
  ("图例".toList, "Legend".toList),
  ("暂无时间线数据".toList, "No timeline data".toList),
  ("请求时间线".toList, "Request timeline".toList),
  ("时间分布".toList, "Time distribution".toList),
  ("进度条".toList, "Progress bar".toList),
  ("拦截的".toList, "Intercepted".toList),
  ("不存在或已处理".toList, "does not exist or already processed".toList),
  ("方法".toList, "Method".toList),
  ("路径".toList, "Path".toList),
  ("加载拦截配置失败".toList, "Failed to load intercept configuration".toList),
  ("加载拦截列表失败".toList, "Failed to load intercept list".toList),
  ("拦截器已启用".toList, "Interceptor enabled".toList),
  ("等待匹配的".toList, "Waiting for matching".toList),
  ("加载通知配置失败".toList, "Failed to load notification configuration".toList),
  ("更新通知配置失败".toList, "Failed to update notification configuration".toList),
  ("测试按钮".toList, "Test button".toList),
  ("发送测试通知".toList, "Send test notification".toList),
  ("预设".toList, "Preset".toList),
  ("加载快速过滤器失败".toList, "Failed to load quick filters".toList),
  ("编辑快速过滤器".toList, "Edit quick filter".toList),
  ("过滤器".toList, "Filter".toList),
  ("多获取一个".toList, "Fetch one more".toList),
  ("因为可能包含当前".toList, "because it may contain current".toList),
  ("没有指定要重放的".toList, "No specified to replay".toList),
  ("重放失败".toList, "Replay failed".toList),
  ("重放成功".toList, "Replay successful".toList),
  ("查看重放结果".toList, "View replay result".toList),
  ("更新会话失败".toList, "Failed to update session".toList),
  ("归档操作失败".toList, "Failed to archive".toList),
  ("响应预览".toList, "Response preview".toList),
  ("评论".toList, "Comments".toList),
  ("加载会话列表失败".toList, "Failed to load session list".toList),
  ("创建会话失败".toList, "Failed to create session".toList),
  ("会话".toList, "Session".toList),
  ("包含".toList, "Contains".toList),
  ("结构化数据格式".toList, "Structured data format".toList),
  ("适合报告".toList, "suitable for reports".toList),
  ("过滤模式切换".toList, "Filter mode toggle".toList),
  ("流式传输中".toList, "Streaming".toList),
  ("已取消".toList, "Cancelled".toList),
  ("目标".toList, "Target".toList),
  ("路由规则".toList, "Routing rules".toList),
  ("负载均衡策略".toList, "Load balancing strategy".toList),
  ("注入参数".toList, "Injected parameters".toList),
  ("流式响应".toList, "Streaming response".toList),
  ("流式传输".toList, "Streaming".toList),
  ("流式接收".toList, "Streaming receive".toList),
  ("状态过滤".toList, "Status filter".toList),
  ("特性".toList, "Features".toList),
  ("标签过滤".toList, "Tag filter".toList),
  ("请求耗时".toList, "Request duration".toList),
  ("首字节到达".toList, "First byte arrival".toList),
  ("响应完成".toList, "Response complete".toList),
  ("时间点标记".toList, "Time point markers".toList),
  ("请求发送".toList, "Request sent".toList),
  ("等待响应".toList, "Waiting for response".toList),
  ("响应接收".toList, "Response received".toList),
  ("监控和分析".toList, "Monitor and analyze".toList),
  ("提供详细的流量分析和调试功能".toList, "Provides detailed traffic analysis and debugging features".toList),
  ("提供详细的流量分析".toList, "Provides detailed traffic analysis".toList),
  ("修改和管理系统机器码".toList, "Modify and manage system machine ID".toList),
  ("支持跨平台操作".toList, "Supports cross-platform operations".toList),
  ("多凭证池管理".toList, "Multi-credential pool management".toList),
  ("自动轮换".toList, "Auto-rotation".toList),
  ("等主流".toList, "and other mainstream".toList),
  ("主流".toList, "Mainstream".toList),
  ("插件扩展".toList, "Plugin extensions".toList),
  ("按需安装".toList, "Install on demand".toList),
  ("监控和分析网络请求".toList, "Monitor and analyze network requests".toList),
  ("在多个设备间同步".toList, "Sync across multiple devices".toList),
  ("更多实用工具正在开发中".toList, "More utility tools are under development".toList),
  ("响应流量".toList, "Response traffic".toList),
  ("视图切换".toList, "View toggle".toList),
  ("窗口大小调整下拉菜单".toList, "Window size adjustment dropdown".toList),
  ("等客户端".toList, "and other clients".toList),
  ("数量验证".toList, "Quantity validation".toList),
  ("总数应至少为".toList, "Total should be at least".toList),
  ("分组应有".toList, "Group should have".toList),
  ("国内".toList, "Domestic".toList),
  ("请重启应用后重试".toList, "Please restart the app and try again".toList),
  ("登录超时".toList, "Login timeout".toList),
  ("授权流程超时".toList, "Authorization flow timeout".toList),
  ("请在".toList, "Please".toList),
  ("分钟内完成登录操作".toList, "complete login within minutes".toList),
  ("请重试登录".toList, "Please retry login".toList),
  ("请尝试使用系统浏览器模式".toList, "Please try using system browser mode".toList),
  ("检查是否有浏览器扩展干扰了登录流程".toList, "Check if browser extensions are interfering with login flow".toList),
  ("授权成功但".toList, "Authorization successful but".toList),
  ("可能是服务器暂时不可用".toList, "Server may be temporarily unavailable".toList),
  ("个".toList, "items".toList),
  ("条".toList, "records".toList),
  ("次".toList, "times".toList),
  ("项".toList, "items".toList),
  ("位".toList, "digits".toList),
  ("个模型".toList, "models".toList),
  ("个文件".toList, "files".toList),
  ("个凭证".toList, "credentials".toList),
  ("个工具".toList, "tools".toList),
  ("个插件".toList, "plugins".toList),
  ("个过滤器".toList, "filters".toList),
  ("上".toList, "Up".toList),
  ("下".toList, "Down".toList),
  ("左".toList, "Left".toList),
  ("右".toList, "Right".toList),
  ("前".toList, "Front".toList),
  ("后".toList, "Back".toList),
  ("中".toList, "Medium".toList),
  ("内".toList, "Inside".toList),
  ("外".toList, "Outside".toList),
  ("大".toList, "Large".toList),
  ("小".toList, "Small".toList),
  ("多".toList, "Multiple".toList),
  ("少".toList, "Few".toList),
  ("高".toList, "High".toList),
  ("低".toList, "Low".toList),
  ("好".toList, "Good".toList),
  ("差".toList, "Poor".toList),
  ("新".toList, "New".toList),
  ("旧".toList, "Old".toList),
  ("快".toList, "Fast".toList),
  ("慢".toList, "Slow".toList),
  ("强".toList, "Strong".toList),
  ("弱".toList, "Weak".toList),
  ("不存在".toList, "does not exist".toList),
  ("返回列表".toList, "Back to list".toList),
  ("代码模式".toList, "Code mode".toList),
  ("显示原始".toList, "Show raw".toList),
  ("标签页".toList, "tabs".toList),
  ("元数据".toList, "Metadata".toList),
  ("时间线".toList, "Timeline".toList),
  ("导出状态提示".toList, "Export status prompt".toList),
  ("正在导出".toList, "Exporting".toList),
  ("可选".toList, "Optional".toList),
  ("必填".toList, "Required".toList),
  ("默认".toList, "Default".toList),
  ("自定义".toList, "custom".toList),
  ("标准".toList, "Standard".toList),
  ("高级".toList, "Advanced".toList),
  ("基础".toList, "Basic".toList),
  ("拦截".toList, "Intercept".toList),
  ("归档".toList, "Archive".toList),
  ("起个名字".toList, "give it a name".toList),
  ("给这个".toList, "Give this".toList),
  ("开头".toList, "start with".toList),
  ("必须以".toList, "Must start with".toList),
  ("安装".toList, "Install".toList),
  ("本地".toList, "Local".toList),
  ("直接".toList, "Direct".toList),
  ("链接".toList, "Link".toList),
  ("即将推出".toList, "Coming soon".toList),
  ("检查更新".toList, "Check for updates".toList),
  ("重新抛出".toList, "Re-throw".toList),
  ("以便".toList, "so that".toList),
  ("该".toList, "This".toList),
  ("没有提供".toList, "does not provide".toList),
  ("行为".toList, "behavior".toList),
  ("参数".toList, "parameters".toList),
  ("此".toList, "This".toList),
  ("可配置的".toList, "configurable".toList),
  ("设置项".toList, "settings".toList),
  ("不允许".toList, "not allowed".toList),
  ("结果".toList, "result".toList),
  ("方式".toList, "method".toList),
  ("格式的".toList, "format".toList),
  ("或其他".toList, "or other".toList),
  ("最后".toList, "Last".toList),
  ("使用".toList, "Use".toList),
  ("模态框".toList, "modal".toList),
  ("头部".toList, "header".toList),
  ("已配置的".toList, "Configured".toList),
  ("开始".toList, "Start".toList),
  ("无效".toList, "invalid".toList),
  ("格式".toList, "format".toList),
  ("点击".toList, "Click".toList),
  ("卸载".toList, "Uninstall".toList),
  ("对话框".toList, "dialog".toList),
  ("终端".toList, "Terminal".toList),
  ("模拟器".toList, "emulator".toList),
  ("支持".toList, "Support".toList),
  ("和".toList, "and".toList),
  ("最后使用".toList, "Last used".toList),
  ("格式无效".toList, "Invalid format".toList),
  ("粘贴凭证".toList, "Paste credentials".toList),
  ("给这个凭证起个名字".toList, "Give this credential a name".toList),
  ("凭证已删除".toList, "Credential deleted".toList),
  ("开始配置".toList, "Start configuration".toList),
  ("该插件没有提供自定义".toList, "This plugin does not provide custom".toList),
  ("配置插件的行为和参数".toList, "Configure plugin behavior and parameters".toList),
  ("此插件暂无可配置的设置项".toList, "This plugin has no configurable settings".toList),
  ("添加凭证模态框".toList, "Add credential modal".toList),
  ("安装中不允许关闭".toList, "Cannot close during installation".toList),
  ("安装结果显示".toList, "Installation result display".toList),
  ("安装方式选择".toList, "Installation method selection".toList),
  ("本地文件安装".toList, "Local file installation".toList),
  ("或其他直接下载链接".toList, "or other direct download links".toList),
  ("检查更新功能即将推出".toList, "Check for updates feature coming soon".toList),
  ("卸载确认对话框".toList, "Uninstall confirmation dialog".toList),
  ("终端模拟器".toList, "Terminal emulator".toList),
  ("支持多标签页和搜索功能".toList, "Supports multiple tabs and search features".toList),
  ("状态概览".toList, "Status overview".toList),
  ("插件系统".toList, "Plugin system".toList),
  ("重新加载插件".toList, "Reload plugins".toList),
  ("通过安装器安装的".toList, "Installed via installer".toList),
  ("按钮添加新插件".toList, "button to add new plugin".toList),
  ("安装对话框".toList, "Installation dialog".toList),
  ("无描述".toList, "No description".toList),
  ("卸载插件".toList, "Uninstall plugin".toList),
  ("作者".toList, "Author".toList),
  ("钩子".toList, "Hooks".toList),
  ("执行次数".toList, "Execution count".toList),
  ("错误次数".toList, "Error count".toList),
  ("超时时间".toList, "Timeout".toList),
  ("管理和配置".toList, "Manage and configure".toList),
  ("内置插件组件渲染".toList, "Built-in plugin component rendering".toList),
  ("应该正确渲染".toList, "Should render correctly".toList),
  ("应该为未知插件显示".toList, "Should display for unknown plugin".toList),
  ("插件未找到".toList, "Plugin not found".toList),
  ("应该为空字符串".toList, "Should be empty string".toList),
  ("应该为随机".toList, "Should be random".toList),
  ("大小写敏感性".toList, "Case sensitivity".toList),
  ("应该区分大小写".toList, "Should be case sensitive".toList),
  ("应该显示未找到".toList, "Should display not found".toList),
  ("无法加载插件".toList, "Cannot load plugin".toList),
  ("的用户界面".toList, "user interface".toList),
  ("此操作将删除插件文件和相关配置".toList, "This operation will delete plugin files and related configuration".toList),
  ("无法撤销".toList, "Cannot be undone".toList),
  ("无法删除已启用的提示词".toList, "Cannot delete enabled prompt".toList),
  ("输入系统提示词内容".toList, "Enter system prompt content".toList),
  ("管理不同应用的系统提示词".toList, "Manage system prompts for different applications".toList),
  ("工具的系统提示词".toList, "System prompt for tools".toList),
  ("定义".toList, "Define".toList),
  ("的行为和风格".toList, "behavior and style".toList),
  ("可创建多个提示词模板".toList, "Can create multiple prompt templates".toList),
  ("一键切换不同场景".toList, "One-click switch between different scenarios".toList),
  ("如代码审查".toList, "such as code review".toList),
  ("文档编写等".toList, "documentation writing, etc.".toList),
  ("个提示词".toList, "prompts".toList),
  ("当前启用".toList, "Currently enabled".toList),
  ("创建第一个".toList, "Create first".toList),
  ("创建新的提示词".toList, "Create new prompt".toList),
  ("新建提示词".toList, "New prompt".toList),
  ("编辑提示词".toList, "Edit prompt".toList),
  ("现在有自己的表单".toList, "now has its own form".toList),
  ("留空使用默认".toList, "Leave empty to use default".toList),
  ("或输入自定义代理地址".toList, "or enter custom proxy address".toList),
  ("排除模型".toList, "Exclude models".toList),
  ("获取授权".toList, "Get authorization".toList),
  ("授权".toList, "Authorization".toList),
  ("获取设备码".toList, "Get device code".toList),
  ("根据类型渲染不同表单".toList, "Render different forms based on type".toList),
  ("配置已保存".toList, "Configuration saved".toList),
  ("集成".toList, "Integration".toList),
  ("的路由和模型映射".toList, "routing and model mapping".toList),
  ("消息提示".toList, "Message prompt".toList),
  ("上游".toList, "Upstream".toList),
  ("管理端点的上游服务器地址".toList, "Manage upstream server address for endpoint".toList),
  ("限制管理端点为本地访问".toList, "Restrict management endpoint to local access".toList),
  ("仅允许".toList, "Only allow".toList),
  ("访问".toList, "access".toList),
  ("管理端点".toList, "Management endpoint".toList),
  ("模型映射".toList, "Model mapping".toList),
  ("将不可用的模型请求映射到可用的替代模型".toList, "Map unavailable model requests to available alternative models".toList),
  ("源模型".toList, "Source model".toList),
  ("目标模型".toList, "Target model".toList),
  ("添加模型映射".toList, "Add model mapping".toList),
  ("表单验证".toList, "Form validation".toList),
  ("有效表单验证".toList, "Valid form validation".toList),
  ("有效的表单状态应通过验证".toList, "Valid form state should pass validation".toList),
  ("有效的表单状态".toList, "Valid form state".toList),
  ("缺少名称验证".toList, "Missing name validation".toList),
  ("缺少名称的表单".toList, "Form missing name".toList),
  ("缺少".toList, "Missing".toList),
  ("验证".toList, "Validation".toList),
  ("的表单应返回".toList, "form should return".toList),
  ("的表单".toList, "form".toList),
  ("名称长度验证".toList, "Name length validation".toList),
  ("名称超过".toList, "Name exceeds".toList),
  ("名称正好".toList, "Name exactly".toList),
  ("个字符应通过验证".toList, "characters should pass validation".toList),
  ("多个缺失字段验证".toList, "Multiple missing fields validation".toList),
  ("兼容".toList, "Compatible".toList),
  ("百川智能".toList, "Baichuan AI".toList),
  ("名称不能为空".toList, "Name cannot be empty".toList),
  ("名称不能超过".toList, "Name cannot exceed".toList),
  ("个字符".toList, "characters".toList),
  ("不能为空".toList, "Cannot be empty".toList),
  ("默认使用".toList, "Use by default".toList),
  ("添加自定义".toList, "Add custom".toList),
  ("搜索厂商".toList, "Search provider".toList),
  ("快速选择厂商".toList, "Quick select provider".toList),
  ("或直接手动填写下方表单".toList, "or manually fill in the form below".toList),
  ("大多数第三方".toList, "Most third-party".toList),
  ("服务使用".toList, "services use".toList),
  ("兼容格式".toList, "compatible format".toList),
  ("从未使用".toList, "Never used".toList),
  ("别名或掩码".toList, "Alias or mask".toList),
  ("总使用次数".toList, "Total usage count".toList),
  ("调用错误次数".toList, "Call error count".toList),
  ("最后使用时间".toList, "Last used time".toList),
  ("等工具".toList, "and other tools".toList),
  ("导出的报告将包含当前时间范围内的所有统计数据".toList, "Exported report will contain all statistics for current time range".toList),
  ("包括请求趋势".toList, "including request trends".toList),
  ("延迟直方图等".toList, "latency histograms, etc.".toList),
  ("文件系统访问".toList, "File system access".toList),
  ("数据库访问".toList, "Database access".toList),
  ("自定义配置".toList, "Custom configuration".toList),
  ("成功导入".toList, "Successfully imported".toList),
  ("服务器配置".toList, "Server configuration".toList),
  ("没有找到".toList, "Not found".toList),
  ("配置可导入".toList, "configuration available for import".toList),
  ("同步完成".toList, "Sync complete".toList),
  ("请输入服务器名称".toList, "Please enter server name".toList),
  ("无法保存".toList, "Cannot save".toList),
  ("同步到外部应用".toList, "Sync to external apps".toList),
  ("从外部导入按钮".toList, "Import from external button".toList),
  ("从外部应用导入".toList, "Import from external apps".toList),
  ("全部导入".toList, "Import all".toList),
  ("同步到外部按钮".toList, "Sync to external button".toList),
  ("同步配置到所有外部应用".toList, "Sync configuration to all external apps".toList),
  ("同步".toList, "Sync".toList),
  ("什么是".toList, "What is".toList),
  ("工具扩展协议".toList, "Tool extension protocol".toList),
  ("能访问文件系统".toList, "Can access file system".toList),
  ("数据库等外部资源".toList, "databases and other external resources".toList),
  ("在此添加".toList, "Add here".toList),
  ("服务器后".toList, "After server".toList),
  ("可同步到".toList, "Can sync to".toList),
  ("也可从这些工具导入已有的".toList, "Can also import existing from these tools".toList),
  ("统一管理".toList, "Unified management".toList),
  ("主内容区域".toList, "Main content area".toList),
  ("左右分栏".toList, "Left-right split".toList),
  ("左侧列表".toList, "Left list".toList),
  ("服务器列表".toList, "Server list".toList),
  ("新建".toList, "New".toList),
  ("启用的应用标签".toList, "Enabled app tags".toList),
  ("右侧编辑面板".toList, "Right edit panel".toList),
  ("选择一个".toList, "Select one".toList),
  ("服务器进行编辑".toList, "server to edit".toList),
  ("或点击".toList, "or click".toList),
  ("添加新的服务器".toList, "add new server".toList),
  ("仅新建时显示".toList, "Show only when creating new".toList),
  ("名称和描述".toList, "Name and description".toList),
  ("横排".toList, "Horizontal".toList),
  ("服务器名称".toList, "Server name".toList),
  ("可选描述".toList, "Optional description".toList),
  ("同步到哪些应用".toList, "Sync to which apps".toList),
  ("同步到".toList, "Sync to".toList),
  ("服务器吗".toList, "server".toList),
  ("点击禁用".toList, "Click to disable".toList),
  ("点击启用".toList, "Click to enable".toList),
  ("删除按钮".toList, "Delete button".toList),
  ("删除此".toList, "Delete this".toList),
  ("标题和添加按钮".toList, "Title and add button".toList),
  ("添加表单".toList, "Add form".toList),
  ("别名输入".toList, "Alias input".toList),
  ("别名".toList, "Alias".toList),
  ("主账号".toList, "Main account".toList),
  ("测试账号".toList, "Test account".toList),
  ("点击上方".toList, "Click above".toList),
  ("按钮添加第一个".toList, "button to add first".toList),
  ("选中的".toList, "Selected".toList),
  ("应与设置面板显示的".toList, "should match what".toList ++ [aposC] ++ "s displayed in settings panel".toList),
  ("设置面板应显示该".toList, "Settings panel should display this".toList),
  ("设置面板应显示空状态".toList, "Settings panel should display empty state".toList),
  ("选中状态变化时应保持同步".toList, "Should stay in sync when selection state changes".toList),
  ("边界情况".toList, "Edge cases".toList),
  ("空字符串".toList, "Empty string".toList),
  ("应被视为有效选择".toList, "should be treated as valid selection".toList),
  ("应被视为不同步".toList, "should be treated as out of sync".toList),
  ("一个为".toList, "One is".toList),
  ("一个不为".toList, "One is not".toList),
  ("状态提取".toList, "State extraction".toList),
  ("应正确提取选择状态".toList, "Should correctly extract selection state".toList),
  ("应处理".toList, "Should handle".toList),
  ("列表选择".toList, "List selection".toList),
  ("列表中选择任意".toList, "Select any from list".toList),
  ("应同步到设置面板".toList, "Should sync to settings panel".toList),
  ("切换选择不同".toList, "Switch to select different".toList),
  ("应正确同步".toList, "Should sync correctly".toList),
  ("没有可用的".toList, "No available".toList),
  ("没有启用的".toList, "No enabled".toList),
  ("设置面板".toList, "Settings panel".toList),
  ("确认对话框".toList, "Confirmation dialog".toList),
  ("导入导出对话框".toList, "Import/Export dialog".toList),
  ("检查连接".toList, "Check connection".toList),
  ("错误详情".toList, "Error details".toList),
  ("显示可用模型".toList, "Show available models".toList),
  ("可用模型".toList, "Available models".toList),
  ("强制为".toList, "Force to".toList),
  ("删除保护".toList, "Delete protection".toList),
  ("不可删除".toList, "Cannot be deleted".toList),
  ("属性应为".toList, "Property should be".toList),
  ("可删除".toList, "Can be deleted".toList),
  ("互斥".toList, "Mutually exclusive".toList),
  ("应互斥".toList, "Should be mutually exclusive".toList),
  ("属性决定删除权限".toList, "Property determines delete permission".toList),
  ("处理".toList, "Handle".toList),
  ("时仍遵循删除规则".toList, "still follows delete rules when".toList),
  ("时可删除".toList, "can be deleted when".toList),
  ("无法删除系统预设".toList, "Cannot delete system preset".toList),
  ("警告图标和提示".toList, "Warning icon and message".toList),
  ("确定要删除".toList, "Are you sure you want to delete".toList),
  ("数量警告".toList, "Quantity warning".toList),
  ("删除后将一并移除".toList, "Will be removed together after deletion".toList),
  ("无效的".toList, "Invalid".toList),
  ("导出当前".toList, "Export current".toList),
  ("配置或从文件导入配置".toList, "configuration or import configuration from file".toList),
  ("不包含实际".toList, "Does not contain actual".toList),
  ("生成导出配置".toList, "Generate export configuration".toList),
  ("或粘贴配置".toList, "or paste configuration".toList),
  ("导入结果".toList, "Import result".toList),
  ("导入完成".toList, "Import complete".toList),
  ("导入部分完成".toList, "Import partially complete".toList),
  ("类型处理正确性".toList, "Type handling correctness".toList),
  ("每个".toList, "Each".toList),
  ("字段对所有".toList, "field for all".toList),
  ("类型都是必需的".toList, "types is required".toList),
  ("类型应需要".toList, "Type should require".toList),
  ("具体".toList, "Specific".toList),
  ("类型字段验证".toList, "Type field validation".toList),
  ("类型只需要".toList, "Type only requires".toList),
  ("类型需要".toList, "Type requires".toList),
  ("所有".toList, "All".toList),
  ("类型都应被支持".toList, "types should be supported".toList),
  ("不存在的字段应返回".toList, "Non-existent field should return".toList),
  ("服务的基础".toList, "Service base".toList),
  ("项目".toList, "Project".toList),
  ("服务位置".toList, "Service location".toList),
  ("都有".toList, "All have".toList),
  ("保存状态指示".toList, "Save state indicator".toList),
  ("分组标题".toList, "Group title".toList),
  ("折叠图标".toList, "Collapse icon".toList),
  ("必须在".toList, "Must be in".toList),
  ("分组正确性".toList, "Grouping correctness".toList),
  ("应被分配到其".toList, "Should be assigned to its".toList),
  ("应正确判断".toList, "Should correctly determine".toList),
  ("是否属于指定分组".toList, "whether it belongs to specified group".toList),
  ("分组后的".toList, "After grouping".toList),
  ("总数应等于原始列表长度".toList, "Total count should equal original list length".toList),
  ("每个分组内的".toList, "Within each group".toList),
  ("应按".toList, "Should be sorted by".toList),
  ("所有有效分组都应在结果中存在".toList, "All valid groups should exist in result".toList),
  ("搜索正确性".toList, "Search correctness".toList),
  ("过滤后的".toList, "After filtering".toList),
  ("应都匹配搜索查询".toList, "Should all match search query".toList),
  ("数量应小于等于原始数量".toList, "Count should be less than or equal to original count".toList),
  ("空查询应返回所有".toList, "Empty query should return all".toList),
  ("空白查询应返回所有".toList, "Blank query should return all".toList),
  ("名称搜索应返回该".toList, "Name search should return this".toList),
  ("搜索应返回该".toList, "Search should return this".toList),
  ("搜索应不区分大小写".toList, "Search should be case insensitive".toList),
  ("应对空查询返回".toList, "Should return for empty query".toList),
  ("分组显示".toList, "Group display".toList),
  ("应被分配到".toList, "Should be assigned to".toList),
  ("应正确识别自定义".toList, "Should correctly identify custom".toList),
  ("属于".toList, "Belongs to".toList),
  ("混合列表中自定义".toList, "Custom in mixed list".toList),
  ("应只出现在".toList, "Should only appear in".toList),
  ("空的自定义".toList, "Empty custom".toList),
  ("列表应返回空的".toList, "List should return empty".toList),
  ("列表项显示完整性".toList, "List item display completeness".toList),
  ("列表项应包含图标".toList, "List item should contain icon".toList),
  ("名称和启用状态".toList, "Name and enabled state".toList),
  ("应为非空字符串".toList, "Should be non-empty string".toList),
  ("用于图标显示".toList, "For icon display".toList),
  ("名称应为非空字符串".toList, "Name should be non-empty string".toList),
  ("数量徽章正确性".toList, "Count badge correctness".toList),
  ("数量应等于".toList, "Count should equal".toList),
  ("数组长度".toList, "Array length".toList),
  ("数量应为非负整数".toList, "Count should be non-negative integer".toList),
  ("不同数量的".toList, "Different count of".toList),
  ("数组应返回".toList, "Array should return".toList),
  ("数量徽章".toList, "Count badge".toList),
  ("支持工具调用".toList, "Supports tool calls".toList),
  ("支持的模型".toList, "Supported models".toList),
  ("显示更多提示".toList, "Show more prompt".toList),
  ("设置面板字段完整性".toList, "Settings panel field completeness".toList),
  ("应为有效".toList, "Should be valid".toList),
  ("空状态处理".toList, "Empty state handling".toList),
  ("具体字段验证".toList, "Specific field validation".toList),
  ("应包含有效的分组".toList, "Should contain valid grouping".toList),
  ("应标记为".toList, "Should be marked as".toList),
  ("数组验证".toList, "Array validation".toList),
  ("应为数组".toList, "Should be array".toList),
  ("系统预设".toList, "System preset".toList),
  ("仅自定义".toList, "Custom only".toList),
  ("分隔线".toList, "Divider".toList),
  ("配置表单".toList, "Configuration form".toList),
  ("连接测试".toList, "Connection test".toList),
  ("后再进行连接测试".toList, "before performing connection test".toList),
  ("的代理".toList, "proxy".toList),
  ("通过".toList, "Via".toList),
  ("认证使用".toList, "Authentication using".toList),
  ("服务".toList, "Service".toList),
  ("按钮添加凭证".toList, "button to add credentials".toList),
  ("登录".toList, "Login".toList),
  ("点击下方按钮获取授权".toList, "Click button below to get authorization".toList),
  ("然后复制到浏览器".toList, "Then copy to browser".toList),
  ("支持指纹浏览器".toList, "Supports fingerprint browser".toList),
  ("完成登录".toList, "Complete login".toList),
  ("授权成功后".toList, "After successful authorization".toList),
  ("凭证将自动保存并添加到凭证池".toList, "Credentials will be automatically saved and added to credential pool".toList),
  ("名称输入".toList, "Name input".toList),
  ("表单内容".toList, "Form content".toList),
  ("按钮区域".toList, "Button area".toList),
  ("系统浏览器选项".toList, "System browser option".toList),
  ("系统浏览器".toList, "System browser".toList),
  ("指纹浏览器选项".toList, "Fingerprint browser option".toList),
  ("指纹浏览器".toList, "Fingerprint browser".toList),
  ("指纹".toList, "Fingerprint".toList),
  ("需安装".toList, "Requires installation".toList),
  ("不可用警告图标".toList, "Unavailable warning icon".toList),
  ("授权表单".toList, "Authorization form".toList),
  ("使用浏览器".toList, "Use browser".toList),
  ("中的".toList, "in".toList),
  ("自动完成".toList, "Auto-complete".toList),
  ("无需手动复制授权码".toList, "No need to manually copy authorization code".toList),
  ("获取方式".toList, "Acquisition method".toList),
  ("登录后".toList, "After login".toList),
  ("的值".toList, "value".toList),
  ("粘贴从浏览器".toList, "Paste from browser".toList),
  ("中获取的".toList, "obtained from".toList),
  ("只需推理权限".toList, "Only requires inference permission".toList),
  ("登录表单".toList, "Login form".toList),
  ("授权成功后会自动完成".toList, "Will auto-complete after successful authorization".toList),
  ("文件导入表单".toList, "File import form".toList),
  ("导入已有的".toList, "Import existing".toList),
  ("导入凭证".toList, "Import credentials".toList),
  ("从页面复制授权码粘贴回应用".toList, "Copy authorization code from page and paste back to app".toList),
  ("云驿代理默认".toList, "Cloud proxy default".toList),
  ("留空则使用凭证文件中的配置".toList, "Leave empty to use configuration from credential file".toList),
  ("收到授权".toList, "Received authorization".toList),
  ("然后复制到浏览器完成".toList, "Then copy to browser to complete".toList),
  ("复制页面显示的授权码粘贴到下方输入框".toList, "Copy authorization code displayed on page and paste to input box below".toList),
  ("授权码输入".toList, "Authorization code input".toList),
  ("授权码".toList, "Authorization code".toList),
  ("粘贴浏览器页面显示的授权码".toList, "Paste authorization code displayed on browser page".toList),
  ("在浏览器中完成授权后".toList, "After completing authorization in browser".toList),
  ("复制页面显示的授权码".toList, "Copy authorization code displayed on page".toList),
  ("提交按钮".toList, "Submit button".toList),
  ("验证授权码".toList, "Verify authorization code".toList),
  ("认证方式选择".toList, "Authentication method selection".toList),
  ("文件导入选项".toList, "File import option".toList),
  ("进行认证".toList, "Perform authentication".toList),
  ("留空使用官方".toList, "Leave empty to use official".toList),
  ("过期".toList, "Expired".toList),
  ("授权已过期".toList, "Authorization expired".toList),
  ("用户取消登录".toList, "User cancelled login".toList),
  ("在线登录".toList, "Online login".toList),
  ("安装引导".toList, "Installation guide".toList),
  ("当选择指纹浏览器但未安装时显示".toList, "Display when fingerprint browser is selected but not installed".toList),
  ("当有错误且不在登录中时显示".toList, "Display when there".toList ++ [aposC] ++ "s an error and not logging in".toList),
  ("登录中状态".toList, "Logging in state".toList),
  ("并输入以下代码".toList, "and enter the following code".toList),
  ("复制代码".toList, "Copy code".toList),
  ("重新打开浏览器".toList, "Reopen browser".toList),
  ("取消登录".toList, "Cancel login".toList),
  ("正在使用指纹浏览器登录".toList, "Logging in using fingerprint browser".toList),
  ("登录完成后会自动返回".toList, "Will automatically return after login completes".toList),
  ("显示登录选项".toList, "Show login options".toList),
  ("第一行".toList, "First line".toList),
  ("第二行".toList, "Second line".toList),
  ("直接粘贴".toList, "Paste directly".toList),
  ("通常包含".toList, "Usually contains".toList),
  ("登录模式不需要手动提交".toList, "Login mode doesn".toList ++ [aposC] ++ "t require manual submission".toList),
  ("到浏览器完成登录".toList, "to browser to complete login".toList),
  ("正在等待授权回调".toList, "Waiting for authorization callback".toList),
  ("错误标题和关闭按钮".toList, "Error title and close button".toList),
  ("故障排除建议".toList, "Troubleshooting suggestions".toList),
  ("建议操作".toList, "Suggested actions".toList),
  ("使用系统浏览器".toList, "Use system browser".toList),
  ("开发模式下显示".toList, "Display in development mode".toList),
  ("正在准备安装".toList, "Preparing installation".toList),
  ("重试安装".toList, "Retry installation".toList),
  ("正在安装".toList, "Installing".toList),
  ("重新检测".toList, "Re-detect".toList),
  ("点击下方按钮获取设备码".toList, "Click button below to get device code".toList),
  ("然后在浏览器中完成".toList, "Then complete in browser".toList),
  ("登录授权".toList, "Login authorization".toList),
  ("用户码显示".toList, "User code display".toList),
  ("验证链接".toList, "Verification link".toList),
  ("检测健康".toList, "Check health".toList),
  ("凭证卡片信息完整性".toList, "Credential card information completeness".toList),
  ("凭证卡片应包含健康状态".toList, "Credential card should contain health status".toList),
  ("使用次数和操作按钮".toList, "Usage count and action buttons".toList),
  ("健康状态应为".toList, "Health status should be".toList),
  ("之一".toList, "one of".toList),
  ("使用次数应为非负整数".toList, "Usage count should be non-negative integer".toList),
  ("错误次数应为非负整数".toList, "Error count should be non-negative integer".toList),
  ("凭证应包含刷新".toList, "Credentials should contain refresh".toList),
  ("所有凭证应包含基本操作按钮".toList, "All credentials should contain basic action buttons".toList),
  ("健康凭证".toList, "Healthy credentials".toList),
  ("应显示为".toList, "Should display as".toList),
  ("不健康凭证".toList, "Unhealthy credentials".toList),
  ("凭证卡片边界情况".toList, "Credential card edge cases".toList),
  ("使用次数为".toList, "Usage count is".toList),
  ("的凭证应正确显示".toList, "credentials should display correctly".toList),
  ("高使用次数的凭证应正确显示".toList, "Credentials with high usage count should display correctly".toList),
  ("时间戳".toList, "Timestamp".toList),
  ("请求开始".toList, "Request start".toList),
  ("请求结束".toList, "Request end".toList),
  ("响应开始".toList, "Response start".toList),
  ("响应结束".toList, "Response end".toList),
  ("总耗时".toList, "Total duration".toList),
  ("提供商信息".toList, "Provider information".toList),
  ("凭证名称".toList, "Credential name".toList),
  ("重试次数".toList, "Retry count".toList),
  ("上下文使用率".toList, "Context usage rate".toList),
  ("客户端信息".toList, "Client information".toList),
  ("路由信息".toList, "Routing information".toList),
  ("差异内容".toList, "Diff content".toList),
  ("视图模式切换".toList, "View mode toggle".toList),
  ("并排视图".toList, "Side-by-side view".toList),
  ("统一视图".toList, "Unified view".toList),
  ("配置按钮".toList, "Configuration button".toList),
  ("关闭按钮".toList, "Close button".toList),
  ("差异配置".toList, "Diff configuration".toList),
  ("忽略时间戳".toList, "Ignore timestamps".toList),
  ("忽略".toList, "Ignore".toList),
  ("差异".toList, "Difference".toList),
  ("没有差异".toList, "No differences".toList),
  ("路径头部".toList, "Path header".toList),
  ("值对比".toList, "Value comparison".toList),
  ("左侧值".toList, "Left value".toList),
  ("右侧值".toList, "Right value".toList),
  ("值显示".toList, "Value display".toList),
  ("删除的值".toList, "Deleted value".toList),
  ("新增的值".toList, "Added value".toList),
  ("消息列表没有差异".toList, "Message list has no differences".toList),
  ("左侧消息".toList, "Left message".toList),
  ("右侧消息".toList, "Right message".toList),
  ("简单过滤".toList, "Simple filter".toList),
  ("表达式".toList, "Expression".toList),
  ("仅在表达式模式显示".toList, "Show only in expression mode".toList),
  ("表达式模式".toList, "Expression mode".toList),
  ("帮助面板".toList, "Help panel".toList),
  ("当前表达式状态".toList, "Current expression status".toList),
  ("当前表达式".toList, "Current expression".toList),
  ("搜索栏".toList, "Search bar".toList),
  ("搜索内容".toList, "Search content".toList),
  ("快捷过滤器".toList, "Quick filters".toList),
  ("两种模式都显示".toList, "Show in both modes".toList),
  ("时间预设".toList, "Time presets".toList),
  ("收藏过滤".toList, "Favorites filter".toList),
  ("收起高级过滤器".toList, "Collapse advanced filters".toList),
  ("仅简单模式".toList, "Simple mode only".toList),
  ("高级过滤".toList, "Advanced filters".toList),
  ("清除过滤器".toList, "Clear filters".toList),
  ("高级过滤器面板".toList, "Advanced filter panel".toList),
  ("仅简单模式且展开时显示".toList, "Show only in simple mode when expanded".toList),
  ("提供商过滤".toList, "Provider filter".toList),
  ("范围".toList, "Range".toList),
  ("最小".toList, "Minimum".toList),
  ("最大".toList, "Maximum".toList),
  ("延迟范围".toList, "Latency range".toList),
  ("模型过滤".toList, "Model filter".toList),
  ("输入模型名称".toList, "Enter model name".toList),
  ("支持通配符".toList, "Supports wildcards".toList),
  ("等待中".toList, "Waiting".toList),
  ("查询".toList, "Query".toList),
  ("查询结果".toList, "Query results".toList),
  ("实时连接状态".toList, "Real-time connection status".toList),
  ("连接中".toList, "Connecting".toList),
  ("实时更新".toList, "Real-time updates".toList),
  ("已暂停".toList, "Paused".toList),
  ("离线".toList, "Offline".toList),
  ("活跃".toList, "Active".toList),
  ("数量".toList, "Count".toList),
  ("请求速率显示".toList, "Request rate display".toList),
  ("阈值警告数量".toList, "Threshold warning count".toList),
  ("通知设置按钮".toList, "Notification settings button".toList),
  ("通知权限被拒绝".toList, "Notification permission denied".toList),
  ("右键打开设置".toList, "Right-click to open settings".toList),
  ("点击启用通知".toList, "Click to enable notifications".toList),
  ("通知已启用".toList, "Notifications enabled".toList),
  ("通知已禁用".toList, "Notifications disabled".toList),
  ("通知".toList, "Notifications".toList),
  ("暂停".toList, "Pause".toList),
  ("恢复按钮".toList, "Resume button".toList),
  ("恢复实时更新".toList, "Resume real-time updates".toList),
  ("暂停实时更新".toList, "Pause real-time updates".toList),
  ("恢复".toList, "Resume".toList),
  ("按耗时".toList, "By duration".toList),
  ("降序".toList, "Descending".toList),
  ("升序".toList, "Ascending".toList),
  ("记录".toList, "Records".toList),
  ("分页".toList, "Pagination".toList),
  ("上一页".toList, "Previous page".toList),
  ("下一页".toList, "Next page".toList),
  ("通知设置面板".toList, "Notification settings panel".toList),
  ("主行".toList, "Main row".toList),
  ("展开按钮".toList, "Expand button".toList),
  ("状态图标".toList, "Status icon".toList),
  ("特性标记".toList, "Feature markers".toList),
  ("包含工具调用".toList, "Contains tool calls".toList),
  ("包含思维链".toList, "Contains chain of thought".toList),
  ("发生错误".toList, "Error occurred".toList),
  ("阈值警告".toList, "Threshold warning".toList),
  ("延迟超限".toList, "Latency exceeded".toList),
  ("超限".toList, "Exceeded".toList),
  ("收藏按钮".toList, "Favorite button".toList),
  ("阈值警告详情".toList, "Threshold warning details".toList),
  ("展开详情".toList, "Expand details".toList),
  ("基本信息".toList, "Basic information".toList),
  ("已导出".toList, "Exported".toList),
  ("复制请求".toList, "Copy request".toList),
  ("获取到的增强统计数据".toList, "Retrieved enhanced statistics".toList),
  ("头部工具栏".toList, "Header toolbar".toList),
  ("统计仪表板".toList, "Statistics dashboard".toList),
  ("调试按钮".toList, "Debug button".toList),
  ("调试信息".toList, "Debug information".toList),
  ("内存中没有".toList, "Not in memory".toList),
  ("创建测试数据".toList, "Create test data".toList),
  ("已创建".toList, "Created".toList),
  ("个测试".toList, "test items".toList),
  ("调试".toList, "Debug".toList),
  ("时间范围选择".toList, "Time range selection".toList),
  ("更新于".toList, "Updated at".toList),
  ("标签页切换".toList, "Tab switching".toList),
  ("概览".toList, "Overview".toList),
  ("趋势".toList, "Trends".toList),
  ("分布".toList, "Distribution".toList),
  ("概览标签页".toList, "Overview tab".toList),
  ("趋势标签页".toList, "Trends tab".toList),
  ("分布标签页".toList, "Distribution tab".toList),
  ("核心指标卡片".toList, "Core metrics cards".toList),
  ("总请求数".toList, "Total requests".toList),
  ("成功率".toList, "Success rate".toList),
  ("平均延迟".toList, "Average latency".toList),
  ("请求速率".toList, "Request rate".toList),
  ("如果有增强统计".toList, "If enhanced statistics available".toList),
  ("失败统计".toList, "Failure statistics".toList),
  ("请求状态".toList, "Request status".toList),
  ("平均输入".toList, "Average input".toList),
  ("平均输出".toList, "Average output".toList),
  ("总输入".toList, "Total input".toList),
  ("总输出".toList, "Total output".toList),
  ("按提供商分布".toList, "Distribution by provider".toList),
  ("按模型分布".toList, "Distribution by model".toList),
  ("按状态分布".toList, "Distribution by status".toList),
  ("请求趋势图".toList, "Request trend chart".toList),
  ("请求趋势".toList, "Request trends".toList),
  ("成功率趋势".toList, "Success rate trends".toList),
  ("按提供商".toList, "By provider".toList),
  ("按提供商成功率".toList, "Success rate by provider".toList),
  ("延迟直方图".toList, "Latency histogram".toList),
  ("延迟分布".toList, "Latency distribution".toList),
  ("错误分布".toList, "Error distribution".toList),
  ("轴标签".toList, "Axis labels".toList),
  ("图表区域".toList, "Chart area".toList),
  ("网格线".toList, "Grid lines".toList),
  ("数据条".toList, "Data bars".toList),
  ("时间间隔".toList, "Time interval".toList),
  ("项未显示".toList, "items not shown".toList),
  ("直方图".toList, "Histogram".toList),
  ("统计概览".toList, "Statistics overview".toList),
  ("分布条".toList, "Distribution bars".toList),
  ("详细列表".toList, "Detailed list".toList),
  ("只显示前".toList, "Show only first".toList),
  ("时间线可视化".toList, "Timeline visualization".toList),
  ("时间轴背景".toList, "Timeline background".toList),
  ("事件列表".toList, "Event list".toList),
  ("时间分布条".toList, "Time distribution bar".toList),
  ("请求发送完成".toList, "Request sent complete".toList),
  ("事件内容".toList, "Event content".toList),
  ("解析错误".toList, "Parse error".toList),
  ("请检查格式".toList, "Please check format".toList),
  ("等待处理".toList, "Waiting for processing".toList),
  ("编辑中".toList, "Editing".toList),
  ("已继续".toList, "Continued".toList),
  ("已超时".toList, "Timed out".toList),
  ("拦截请求".toList, "Intercept request".toList),
  ("拦截响应".toList, "Intercept response".toList),
  ("信息栏".toList, "Information bar".toList),
  ("已修改".toList, "Modified".toList),
  ("解析错误提示".toList, "Parse error message".toList),
  ("编辑区域".toList, "Edit area".toList),
  ("底部操作栏".toList, "Bottom action bar".toList),
  ("修改后的内容将用于继续处理".toList, "Modified content will be used for continued processing".toList),
  ("可以编辑内容后继续处理".toList, "Can edit content and continue processing".toList),
  ("取消请求".toList, "Cancel request".toList),
  ("应用修改并继续".toList, "Apply changes and continue".toList),
  ("继续处理".toList, "Continue processing".toList),
  ("无法解析".toList, "Cannot parse".toList),
  ("请切换到原始视图编辑".toList, "Please switch to raw view to edit".toList),
  ("拦截器".toList, "Interceptor".toList),
  ("个待处理".toList, "pending items".toList),
  ("快速切换按钮".toList, "Quick toggle button".toList),
  ("已启用".toList, "Enabled".toList),
  ("拦截类型选择".toList, "Intercept type selection".toList),
  ("拦截类型".toList, "Intercept type".toList),
  ("过滤表达式".toList, "Filter expression".toList),
  ("留空则拦截所有匹配类型的".toList, "Leave empty to intercept all matching types".toList),
  ("超时设置".toList, "Timeout settings".toList),
  ("超时后继续".toList, "Continue after timeout".toList),
  ("超时后取消".toList, "Cancel after timeout".toList),
  ("被拦截的".toList, "Intercepted".toList),
  ("待处理的拦截".toList, "Pending intercepts".toList),
  ("空状态".toList, "Empty state".toList),
  ("测试通知".toList, "Test notification".toList),
  ("这是一条测试通知".toList, "This is a test notification".toList),
  ("用于验证通知功能是否正常工作".toList, "Used to verify notification functionality".toList),
  ("标题栏".toList, "Title bar".toList),
  ("通知设置".toList, "Notification settings".toList),
  ("权限状态".toList, "Permission status".toList),
  ("通知权限".toList, "Notification permission".toList),
  ("已授权".toList, "Authorized".toList),
  ("已拒绝".toList, "Denied".toList),
  ("重新授权".toList, "Re-authorize".toList),
  ("请求权限".toList, "Request permission".toList),
  ("基本设置".toList, "Basic settings".toList),
  ("启用通知".toList, "Enable notifications".toList),
  ("通知类型".toList, "Notification types".toList),
  ("桌面通知".toList, "Desktop notifications".toList),
  ("声音提示".toList, "Sound alerts".toList),
  ("错误通知".toList, "Error notifications".toList),
  ("阈值警告通知".toList, "Threshold warning notifications".toList),
  ("警告通知".toList, "Warning notifications".toList),
  ("无法删除预设过滤器".toList, "Cannot delete preset filter".toList),
  ("确定要删除此过滤器吗".toList, "Are you sure you want to delete this filter".toList),
  ("没有导入任何过滤器".toList, "No filters imported".toList),
  ("可能已存在同名过滤器".toList, "Filter with same name may already exist".toList),
  ("快速过滤器".toList, "Quick filters".toList),
  ("创建过滤器".toList, "Create filter".toList),
  ("导出过滤器".toList, "Export filters".toList),
  ("导入过滤器".toList, "Import filters".toList),
  ("过滤器列表".toList, "Filter list".toList),
  ("创建第一个过滤器".toList, "Create first filter".toList),
  ("创建过滤器对话框".toList, "Create filter dialog".toList),
  ("编辑过滤器对话框".toList, "Edit filter dialog".toList),
  ("创建快速过滤器".toList, "Create quick filter".toList),
  ("输入过滤器名称".toList, "Enter filter name".toList),
  ("例如".toList, "For example".toList),
  ("等过滤器".toList, "and other filters".toList),
  ("输入过滤器描述".toList, "Enter filter description".toList),
  ("创建中".toList, "Creating".toList),
  ("同一会话".toList, "Same session".toList),
  ("相似请求".toList, "Similar requests".toList),
  ("会话信息".toList, "Session information".toList),
  ("刚刚".toList, "Just now".toList),
  ("分钟前".toList, "minutes ago".toList),
  ("批量重放".toList, "Batch replay".toList),
  ("重放".toList, "Replay".toList),
  ("重放数量提示".toList, "Replay count prompt".toList),
  ("将重放".toList, "Will replay".toList),
  ("将重放选中的".toList, "Will replay selected".toList),
  ("结果显示".toList, "Result display".toList),
  ("进度显示".toList, "Progress display".toList),
  ("重放进度".toList, "Replay progress".toList),
  ("修改请求选项".toList, "Modify request options".toList),
  ("仅单个重放时显示".toList, "Show only for single replay".toList),
  ("修改请求参数".toList, "Modify request parameters".toList),
  ("修改模型".toList, "Modify model".toList),
  ("输入新的模型名称".toList, "Enter new model name".toList),
  ("重放间隔".toList, "Replay interval".toList),
  ("避免触发速率限制".toList, "Avoid triggering rate limits".toList),
  ("重放会创建新的".toList, "Replay will create new".toList),
  ("并标记为".toList, "and mark as".toList),
  ("重放完成后可以对比原始".toList, "After replay, can compare original".toList),
  ("和重放".toList, "and replay".toList),
  ("批量重放会按顺序执行".toList, "Batch replay will execute sequentially".toList),
  ("每个请求之间有间隔".toList, "Interval between each request".toList),
  ("重放中".toList, "Replaying".toList),
  ("批量结果摘要".toList, "Batch result summary".toList),
  ("总数".toList, "Total".toList),
  ("详细结果列表".toList, "Detailed result list".toList),
  ("确定要删除此会话吗".toList, "Are you sure you want to delete this session".toList),
  ("取消归档".toList, "Unarchive".toList),
  ("输入会话描述".toList, "Enter session description".toList),
  ("创建于".toList, "Created on".toList),
  ("区域".toList, "Area".toList),
  ("到会话".toList, "to session".toList),
  ("搜索结果".toList, "Search results".toList),
  ("此会话暂无".toList, "This session has no".toList),
  ("添加第一个".toList, "Add first".toList),
  ("从会话移除".toList, "Remove from session".toList),
  ("时间信息".toList, "Time information".toList),
  ("会话管理".toList, "Session management".toList),
  ("创建会话".toList, "Create session".toList),
  ("搜索会话".toList, "Search sessions".toList),
  ("显示已归档".toList, "Show archived".toList),
  ("会话列表".toList, "Session list".toList),
  ("活跃会话".toList, "Active sessions".toList),
  ("创建第一个会话".toList, "Create first session".toList),
  ("已归档会话".toList, "Archived sessions".toList),
  ("创建会话对话框".toList, "Create session dialog".toList),
  ("编辑会话对话框".toList, "Edit session dialog".toList),
  ("会话名称".toList, "Session name".toList),
  ("输入会话名称".toList, "Enter session name".toList),
  ("编辑会话".toList, "Edit session".toList),
  ("请等待模型数据加载".toList, "Please wait for model data to load".toList),
  ("无搜索结果".toList, "No search results".toList),
  ("未找到匹配的模型".toList, "No matching models found".toList),
  ("尝试其他搜索词".toList, "Try other search terms".toList),
  ("选中指示器".toList, "Selection indicator".toList),
  ("模型信息".toList, "Model information".toList),
  ("能力标签和操作".toList, "Capability tags and actions".toList),
  ("全部模型".toList, "All models".toList),
  ("请先添加凭证".toList, "Please add credentials first".toList),
  ("状态和能力标签".toList, "Status and capability tags".toList),
  ("视觉".toList, "Vision".toList),
  ("模式切换和刷新".toList, "Mode toggle and refresh".toList),
  ("统计信息".toList, "Statistics".toList),
  ("可用".toList, "Available".toList),
  ("刷新按钮".toList, "Refresh button".toList),
  ("等级选择器".toList, "Tier selector".toList),
  ("专家模式".toList, "Expert mode".toList),
  ("显示模型列表".toList, "Show model list".toList),
  ("简单模式".toList, "Simple mode".toList),
  ("显示当前选择".toList, "Show current selection".toList),
  ("简单".toList, "Simple".toList),
  ("专家".toList, "Expert".toList),
  ("时清除模型选择".toList, "Clear model selection when".toList),
  ("已配置凭证的".toList, "With configured credentials".toList),
  ("的模型".toList, "models".toList),
  ("请选择".toList, "Please select".toList),
  ("程序员".toList, "Programmer".toList),
  ("编程工具".toList, "Programming tools".toList),
  ("普通用户".toList, "Regular user".toList),
  ("日常使用".toList, "Daily use".toList),
  ("聊天和其他功能".toList, "Chat and other features".toList),
  ("拦截桌面应用的浏览器启动".toList, "Intercept browser launches from desktop apps".toList),
  ("支持手动复制".toList, "Support manual copying".toList),
  ("到指纹浏览器".toList, "to fingerprint browser".toList),
  ("直接跳到完成页".toList, "Skip directly to completion page".toList),
  ("开始安装".toList, "Start installation".toList),
  ("跳过安装".toList, "Skip installation".toList),
  ("设置完成".toList, "Setup complete".toList),
  ("所有插件已成功安装".toList, "All plugins installed successfully".toList),
  ("您可以开始使用".toList, "You can start using".toList),
  ("个安装失败".toList, "installation failed".toList),
  ("您可以稍后在插件中心重试".toList, "You can retry later in Plugin Center".toList),
  ("您已跳过插件安装".toList, "You skipped plugin installation".toList),
  ("可以稍后在插件中心安装需要的插件".toList, "Can install needed plugins later in Plugin Center".toList),
  ("您可以在左侧导航栏的".toList, "You can find in the left navigation bar".toList),
  ("随时安装插件".toList, "install plugins anytime".toList),
  ("开始使用".toList, "Get started".toList),
  ("等待安装".toList, "Waiting to install".toList),
  ("准备下载".toList, "Preparing download".toList),
  ("请稍候".toList, "Please wait".toList),
  ("正在为您安装选中的插件".toList, "Installing selected plugins for you".toList),
  ("已为程序员推荐配置管理和".toList, "Configuration management recommended for programmers and".toList),
  ("您可以根据需要选择插件".toList, "You can select plugins as needed".toList),
  ("或稍后在插件中心安装".toList, "or install later in Plugin Center".toList),
  ("您是哪类用户".toList, "What type of user are you".toList),
  ("欢迎使用".toList, "Welcome to".toList),
  ("聚合代理".toList, "Aggregation proxy".toList),
  ("让我们花一分钟时间".toList, "Let".toList ++ [aposC] ++ "s take a minute".toList),
  ("根据您的使用场景推荐合适的插件".toList, "to recommend suitable plugins based on your use case".toList),
  ("提升您的使用体验".toList, "to enhance your experience".toList)
]

/-- Lookup in the `TRANSLATIONS` dict (`x in TRANSLATIONS` / `TRANSLATIONS[x]`). -/
def lookupT (s : List Char) : Option (List Char) := TRANSLATIONS.lookup s

/-- Python `str.lower()`.  All cased characters reachable here are ASCII
(the dictionary values are ASCII and CJK characters are caseless), so
`Char.toLower` is an exact model. -/
def pyLower (s : List Char) : List Char := s.map Char.toLower

/-- Python `x or y` where `x` is `translate_text(...)` (either `None` or a
string): the result is `x` when it is truthy (a non-empty string), else `y`. -/
def pyOr (o : Option (List Char)) (d : List Char) : List Char :=
  match o with
  | some t => if t = [] then d else t
  | none => d

/-- Python `s.split(c, 1)` for a one-character separator `c` occurring in `s`:
the part before the first occurrence of `c` and the part after it. -/
def splitFirst (c : Char) (s : List Char) : List Char × List Char :=
  (s.takeWhile (fun a => a != c), (s.dropWhile (fun a => a != c)).tail)

/-
The body of `translate_text` (`translate_all.py`, lines 1160-1449) is a chain
of pattern rules, most of which share one of three shapes.  Each shape is a
parametrised definition below; the per-rule parameters (affix length, English
template text, and whether the miss-branch recurses) follow each Python block
verbatim.  `recur` abstracts the recursive self-call.
-/

/-- Shape of the `"X<suffix>" → "<base trans><eng>"` rules (失败-style blocks
such as lines 1248-1256): on a dictionary hit return `T[base] + eng`; otherwise
(when `useRecur`) try the recursive call, falling back to the raw base.  The
rules without a recursive fallback (e.g. 模式, line 1268) use
`useRecur = false`. -/
def suffixRule (recur : List Char → List Char → Option (List Char)) (s ctx : List Char)
    (k : Nat) (eng : List Char) (useRecur : Bool) : Option (List Char) :=
  match lookupT (s.take (s.length - k)) with
  | some t => some (t ++ eng)
  | none =>
    if useRecur then
      match recur (s.take (s.length - k)) ctx with
      | some bt =>
        if bt = [] then some (s.take (s.length - k) ++ eng)
        else some (bt ++ eng)
      | none => some (s.take (s.length - k) ++ eng)
    else some (s.take (s.length - k) ++ eng)

/-- Shape of the `"<prefix>X" → "<eng><rest trans lowercased>"` rules (请-style
blocks such as lines 1232-1239): on a dictionary hit return
`eng + T[rest].lower()`; otherwise (when `useRecur`) try the recursive call
(lower-cased), falling back to `eng + rest` (not lower-cased).  The rules
without a recursive fallback (加载 line 1169, 暂无 line 1242) use
`useRecur = false`. -/
def prefixLowerRule (recur : List Char → List Char → Option (List Char)) (s ctx : List Char)
    (k : Nat) (eng : List Char) (useRecur : Bool) : Option (List Char) :=
  match lookupT (s.drop k) with
  | some t => some (eng ++ pyLower t)
  | none =>
    if useRecur then
      match recur (s.drop k) ctx with
      | some rt =>
        if rt = [] then some (eng ++ s.drop k)
        else some (eng ++ pyLower rt)
      | none => some (eng ++ s.drop k)
    else some (eng ++ s.drop k)

/-- The `"X失败"` rule (lines 1176-1188), with its special verb list. -/
def ruleFail (recur : List Char → List Char → Option (List Char)) (s ctx : List Char) :
    Option (List Char) :=
  match lookupT (s.take (s.length - 2)) with
  | some t =>
    if t ∈ ["Load".toList, "Save".toList, "Delete".toList, "Add".toList, "Edit".toList,
        "Update".toList, "Create".toList, "Import".toList, "Export".toList] then
      some ("Failed to ".toList ++ pyLower t)
    else some (t ++ " failed".toList)
  | none =>
    match recur (s.take (s.length - 2)) ctx with
    | some bt =>
      if bt = [] then some (s.take (s.length - 2) ++ " failed".toList)
      else some (bt ++ " failed".toList)
    | none => some (s.take (s.length - 2) ++ " failed".toList)

/-- The `"已X"` rule (lines 1201-1209).  Source line 1207 returns
`trans + "d"` in both arms of its conditional, which is kept as written. -/
def ruleAlready (s : List Char) : Option (List Char) :=
  match lookupT (s.drop 1) with
  | some t =>
    if t ∈ ["Archive".toList, "Delete".toList, "Add".toList, "Edit".toList, "Save".toList,
        "Load".toList, "Copy".toList, "Export".toList] then
      if ¬ ("e".toList <:+ t) then some (t ++ "d".toList) else some (t ++ "d".toList)
    else some t
  | none => some (s.drop 1)

/-- The `"X中"` suffix rule (lines 1212-1220). -/
def ruleDoing (s : List Char) : Option (List Char) :=
  match lookupT (s.take (s.length - 1)) with
  | some t =>
    if t ∈ ["Load".toList, "Save".toList, "Add".toList, "Edit".toList, "Create".toList,
        "Export".toList, "Install".toList] then
      if ¬ ("e".toList <:+ t) then some (t ++ "ing".toList)
      else some (t.take (t.length - 1) ++ "ing".toList)
    else some (t ++ " in progress".toList)
  | none => some (s.take (s.length - 1) ++ "ing".toList)

/-- The `"未X"` rule (lines 1223-1229), with its special case for 使用. -/
def ruleNot (s : List Char) : Option (List Char) :=
  match lookupT (s.drop 1) with
  | some t => some ("Not ".toList ++ pyLower t)
  | none =>
    if s.drop 1 = "使用".toList then some "Unused".toList
    else some ("Not ".toList ++ s.drop 1)

/-- `left_trans` of the split rules (lines 1405, 1417, 1426, 1435, 1444):
`translate_text(left, context_key) or TRANSLATIONS.get(left, left)`. -/
def leftT (recur : List Char → List Char → Option (List Char)) (s ctx : List Char)
    (c : Char) : List Char :=
  pyOr (recur (splitFirst c s).1 ctx) ((lookupT (splitFirst c s).1).getD (splitFirst c s).1)

/-- `right_trans` of the split rules (lines 1406, 1418, 1427, 1436, 1445). -/
def rightT (recur : List Char → List Char → Option (List Char)) (s ctx : List Char)
    (c : Char) : List Char :=
  pyOr (recur (splitFirst c s).2 ctx) ((lookupT (splitFirst c s).2).getD (splitFirst c s).2)

/-- The `"X的Y"` rule (lines 1401-1410): `"{right} of {left}"` when the right
segment is in the closed noun set, else `"{left}'s {right}"`. -/
def ruleOf (recur : List Char → List Char → Option (List Char)) (s ctx : List Char) :
    Option (List Char) :=
  if (splitFirst '的' s).2 ∈ ["值".toList, "内容".toList, "配置".toList, "设置".toList,
      "信息".toList, "状态".toList, "名称".toList, "类型".toList, "列表".toList,
      "文件".toList] then
    some (rightT recur s ctx '的' ++ " of ".toList ++ leftT recur s ctx '的')
  else
    some (leftT recur s ctx '的' ++ (aposC :: "s ".toList) ++ rightT recur s ctx '的')

/-- The 和/或/后/中 split rules (lines 1413-1446): join the resolved segments
with `mid`; `flip` selects the `"{right} <mid> {left}"` orientation. -/
def ruleJoin (recur : List Char → List Char → Option (List Char)) (s ctx : List Char)
    (c : Char) (flip : Bool) (mid : List Char) : Option (List Char) :=
  if flip then some (rightT recur s ctx c ++ mid ++ leftT recur s ctx c)
  else some (leftT recur s ctx c ++ mid ++ rightT recur s ctx c)

/-- One unfolding of `translate_text` (`translate_all.py`, lines 1160-1449)
with the recursive self-call abstracted as `recur`.  Branches appear in source
order; the `len(parts) == 2` guards after `split(sep, 1)` are always true when
the separator occurs in the text and are not represented. -/
def tBody (recur : List Char → List Char → Option (List Char)) (s ctx : List Char) :
    Option (List Char) :=
  -- direct match (line 1163): `return TRANSLATIONS[chinese_text]`, i.e. `lookupT s` itself
  if (lookupT s).isSome then lookupT s
  else if "加载".toList <+: s then prefixLowerRule recur s ctx 2 "Load ".toList false
  else if "失败".toList <:+ s then ruleFail recur s ctx
  else if "成功".toList <:+ s then suffixRule recur s ctx 2 " successful".toList true
  else if "已".toList <+: s then ruleAlready s
  else if "中".toList <:+ s then ruleDoing s
  else if "未".toList <+: s then ruleNot s
  else if "请".toList <+: s then prefixLowerRule recur s ctx 1 "Please ".toList true
  else if "暂无".toList <+: s then prefixLowerRule recur s ctx 2 "No ".toList false
  else if "列表".toList <:+ s then suffixRule recur s ctx 2 " list".toList true
  else if "设置".toList <:+ s then suffixRule recur s ctx 2 " settings".toList true
  else if "模式".toList <:+ s then suffixRule recur s ctx 2 " mode".toList false
  else if "类型".toList <:+ s then suffixRule recur s ctx 2 " type".toList false
  else if "文件".toList <:+ s then suffixRule recur s ctx 2 " file".toList true
  else if "选择器".toList <:+ s then suffixRule recur s ctx 3 " selector".toList false
  else if "字段".toList <:+ s then suffixRule recur s ctx 2 " field".toList false
  else if "路径".toList <:+ s then suffixRule recur s ctx 2 " path".toList true
  else if "选择".toList <+: s then prefixLowerRule recur s ctx 2 "Select ".toList true
  else if "打开".toList <+: s then prefixLowerRule recur s ctx 2 "Open ".toList true
  else if "名称".toList <:+ s then suffixRule recur s ctx 2 " name".toList true
  else if "信息".toList <:+ s then suffixRule recur s ctx 2 " information".toList true
  else if "错误".toList <:+ s then suffixRule recur s ctx 2 " error".toList false
  else if "包".toList <:+ s then suffixRule recur s ctx 1 " package".toList false
  else if "目录".toList <:+ s then suffixRule recur s ctx 2 " directory".toList true
  else if "启用".toList <+: s then prefixLowerRule recur s ctx 2 "Enable ".toList true
  else if "禁用".toList <+: s then prefixLowerRule recur s ctx 2 "Disable ".toList true
  else if '的' ∈ s then ruleOf recur s ctx
  else if '和' ∈ s then ruleJoin recur s ctx '和' false " and ".toList
  else if '或' ∈ s then ruleJoin recur s ctx '或' false " or ".toList
  else if '后' ∈ s ∧ ¬ ("后".toList <:+ s) then ruleJoin recur s ctx '后' true " after ".toList
  else if '中' ∈ s ∧ ¬ ("中".toList <:+ s) then ruleJoin recur s ctx '中' true " in ".toList
  else none

/-- Fuelled `translate_text`: one `tBody` unfolding per unit of fuel. -/
def tF : Nat → List Char → List Char → Option (List Char)
  | 0, _, _ => none
  | n + 1, s, ctx => tBody (tF n) s ctx

/-- `translate_text(chinese_text, context_key)` from `translate_all.py`.
Every recursive call of the source is on a strictly shorter string, so fuel
`s.length + 1` always suffices (theorem `tF_stable` below). -/
def translate_text (s ctx : List Char) : Option (List Char) := tF (s.length + 1) s ctx

/-- The pending test of `extract_remaining_todos.py`, line 15:
`isinstance(value, str) and value.startswith('[TODO: Translate]')`. -/
def is_pending_extract : PyVal → Prop
  | .str s => TODO17 <+: s
  | .other _ => False

/-- The pending test of `import_translations.py`, line 24 (same text). -/
def is_pending_import : PyVal → Prop
  | .str s => TODO17 <+: s
  | .other _ => False

/-- The pending test of `translate_all.py`, line 1473 (same text). -/
def is_pending_translate : PyVal → Prop
  | .str s => TODO17 <+: s
  | .other _ => False

instance : DecidablePred is_pending_extract := fun v =>
  match v with
  | .str s => inferInstanceAs (Decidable (TODO17 <+: s))
  | .other _ => isFalse (fun h => h)

instance : DecidablePred is_pending_import := fun v =>
  match v with
  | .str s => inferInstanceAs (Decidable (TODO17 <+: s))
  | .other _ => isFalse (fun h => h)

instance : DecidablePred is_pending_translate := fun v =>
  match v with
  | .str s => inferInstanceAs (Decidable (TODO17 <+: s))
  | .other _ => isFalse (fun h => h)

/-- Python `d[k] = v` on an association-list dict: replace the value at the
first occurrence of `k`, or append `(k, v)` when `k` is absent. -/
def dictSet {α : Type} : List (List Char × α) → List Char → α → List (List Char × α)
  | [], k, v => [(k, v)]
  | (k', v') :: rest, k, v =>
    if k' = k then (k', v) :: rest else (k', v') :: dictSet rest k v

/-- The TODO-scan loop of `extract_remaining_todos.py` (lines 14-18): build the
`todos` dict mapping each extracted source text to the empty string. -/
def extractTodos (data : List (List Char × PyVal)) : List (List Char × List Char) :=
  data.foldl (fun todos kv =>
    match kv.2 with
    | .str s => if TODO17 <+: s then dictSet todos (removeMarker s) [] else todos
    | .other _ => todos) []

/-- The per-entry decision of the apply loop of `import_translations.py`
(lines 23-27): the value an entry holds after the loop visited it. -/
def importValue (tr : List (List Char × List Char)) (v : PyVal) : PyVal :=
  match v with
  | .str s =>
    if TODO17 <+: s then
      match tr.lookup (removeMarker s) with
      | some t => if t = [] then .str s else .str t
      | none => .str s
    else .str s
  | .other n => .other n

/-- One iteration of the apply loop of `import_translations.py` (lines 23-27):
`data[key] = translations[chinese]` when the entry is pending and its source
text resolves to a truthy translation. -/
def importStep (tr : List (List Char × List Char)) (st : List (List Char × PyVal))
    (kv : List Char × PyVal) : List (List Char × PyVal) :=
  match kv.2 with
  | .str s =>
    if TODO17 <+: s then
      match tr.lookup (removeMarker s) with
      | some t => if t = [] then st else dictSet st kv.1 (.str t)
      | none => st
    else st
  | .other _ => st

/-- The whole apply loop of `import_translations.py`: iterate over the
original entries (each value is read before its own key can be written, and no
other iteration writes it) while mutating the dict in place. -/
def runImport (tr : List (List Char × List Char)) (data : List (List Char × PyVal)) :
    List (List Char × PyVal) :=
  data.foldl (importStep tr) data

/-- Outcome of one run of `import_translations.py`: process exit code, the
catalog written back to `en.json` (if any), and the printed lines of the error
branch.  Stdout of the success path (progress/count lines) is not modelled; no
claim concerns it. -/
structure ToolRun where
  exitCode : Nat
  written : Option (List (List Char × PyVal))
  messages : List (List Char)

/-- `import_translations.py`, module body: the `INPUT_FILE.exists()` guard
(lines 9-12) and, when the artifact exists, the load/apply/save path.
`artifact` is the parsed side artifact, `none` when the file is missing. -/
def importTool (artifactPath : List Char) (artifact : Option (List (List Char × List Char)))
    (data : List (List Char × PyVal)) : ToolRun :=
  match artifact with
  | none =>
    { exitCode := 1
      written := none
      messages := ["Error: ".toList ++ artifactPath ++ " not found".toList,
                   "Run extract_remaining_todos.py first".toList] }
  | some tr =>
    { exitCode := 0
      written := some (runImport tr data)
      messages := [] }

/-- The per-entry decision of the main loop of `translate_all.py`
(lines 1473-1479), given the current section `sec`: the value an entry holds
after the loop visited it. -/
def translateStep (sec : List Char) (v : PyVal) : PyVal :=
  match v with
  | .str s =>
    if TODO17 <+: s then
      match translate_text (removeMarker s) sec with
      | some t => if t = [] then .str s else .str t
      | none => .str s
    else .str s
  | .other n => .other n

/-- One iteration of the main loop of `translate_all.py` (lines 1468-1479):
first the section is updated when the key starts with `"// ==="`, then a
pending entry is translated with the current section as context. -/
def trStep (acc : List (List Char × PyVal) × List Char) (kv : List Char × PyVal) :
    List (List Char × PyVal) × List Char :=
  (match kv.2 with
   | .str s =>
     if TODO17 <+: s then
       match translate_text (removeMarker s)
           (if "// ===".toList <+: kv.1 then kv.1 else acc.2) with
       | some t => if t = [] then acc.1 else dictSet acc.1 kv.1 (.str t)
       | none => acc.1
     else acc.1
   | .other _ => acc.1,
   if "// ===".toList <+: kv.1 then kv.1 else acc.2)

/-- The whole main loop of `translate_all.py`: iterate over the original
entries while mutating the dict in place, threading `current_section`
(initially the empty string). -/
def runTranslator (data : List (List Char × PyVal)) : List (List Char × PyVal) :=
  (data.foldl trStep (data, [])).1

/-- Pointwise specification of the translator loop: per-entry rewriting with
the section threaded down the list.  Equal to `runTranslator` on catalogs with
distinct keys (`runTranslator_eq_mapTrans`). -/
def mapTrans (sec : List Char) : List (List Char × PyVal) → List (List Char × PyVal)
  | [] => []
  | kv :: rest =>
    (kv.1, translateStep (if "// ===".toList <+: kv.1 then kv.1 else sec) kv.2) ::
      mapTrans (if "// ===".toList <+: kv.1 then kv.1 else sec) rest

/-- Stability of a catalog value under one translator pass: either the value is
not pending, or its resolution (when truthy) does not itself start with the
sentinel.  The adversarial inputs breaking idempotence of the translator are
exactly those violating this. -/
def resolvedOk : PyVal → Bool
  | .str s =>
    !(TODO17.isPrefixOf s) ||
      (match translate_text (removeMarker s) [] with
       | some t => t.isEmpty || !(TODO17.isPrefixOf t)
       | none => true)
  | .other _ => true

/-! ### Termination and context-independence of `translate_text` -/

theorem take_sub_length_lt {s : List Char} {k : Nat} (hk : 0 < k) (h : k ≤ s.length) :
    (s.take (s.length - k)).length < s.length := by
  rw [List.length_take]; omega

theorem drop_length_lt {s : List Char} {k : Nat} (hk : 0 < k) (h : k ≤ s.length) :
    (s.drop k).length < s.length := by
  rw [List.length_drop]; omega

theorem suffix_le {w s : List Char} {k : Nat} (hs : w <:+ s) (hw : w.length = k) :
    k ≤ s.length := hw ▸ hs.length_le

theorem prefix_le {w s : List Char} {k : Nat} (hs : w <+: s) (hw : w.length = k) :
    k ≤ s.length := hw ▸ hs.length_le

theorem splitFirst_fst_length_lt {c : Char} {s : List Char} (hc : c ∈ s) :
    (splitFirst c s).1.length < s.length := by
  have hsum : (s.takeWhile (fun a => a != c)).length +
      (s.dropWhile (fun a => a != c)).length = s.length := by
    rw [← List.length_append, List.takeWhile_append_dropWhile]
  have hne : s.dropWhile (fun a => a != c) ≠ [] := by
    intro hnil
    have hall := List.dropWhile_eq_nil_iff.mp hnil c hc
    simp at hall
  have hpos : 0 < (s.dropWhile (fun a => a != c)).length := List.length_pos.mpr hne
  simp only [splitFirst]
  omega

theorem splitFirst_snd_length_lt {c : Char} {s : List Char} (hc : c ∈ s) :
    (splitFirst c s).2.length < s.length := by
  have hsum : (s.takeWhile (fun a => a != c)).length +
      (s.dropWhile (fun a => a != c)).length = s.length := by
    rw [← List.length_append, List.takeWhile_append_dropWhile]
  have hpos : 0 < s.length := List.length_pos.mpr (List.ne_nil_of_mem hc)
  simp only [splitFirst, List.length_tail]
  omega

theorem suffixRule_congr {r1 r2 : List Char → List Char → Option (List Char)}
    {s c1 c2 : List Char} {k : Nat} {eng : List Char} {u : Bool}
    (h : r1 (s.take (s.length - k)) c1 = r2 (s.take (s.length - k)) c2) :
    suffixRule r1 s c1 k eng u = suffixRule r2 s c2 k eng u := by
  unfold suffixRule; rw [h]

theorem prefixLowerRule_congr {r1 r2 : List Char → List Char → Option (List Char)}
    {s c1 c2 : List Char} {k : Nat} {eng : List Char} {u : Bool}
    (h : r1 (s.drop k) c1 = r2 (s.drop k) c2) :
    prefixLowerRule r1 s c1 k eng u = prefixLowerRule r2 s c2 k eng u := by
  unfold prefixLowerRule; rw [h]

theorem ruleFail_congr {r1 r2 : List Char → List Char → Option (List Char)}
    {s c1 c2 : List Char}
    (h : r1 (s.take (s.length - 2)) c1 = r2 (s.take (s.length - 2)) c2) :
    ruleFail r1 s c1 = ruleFail r2 s c2 := by
  unfold ruleFail; rw [h]

theorem ruleOf_congr {r1 r2 : List Char → List Char → Option (List Char)}
    {s c1 c2 : List Char}
    (h1 : r1 (splitFirst '的' s).1 c1 = r2 (splitFirst '的' s).1 c2)
    (h2 : r1 (splitFirst '的' s).2 c1 = r2 (splitFirst '的' s).2 c2) :
    ruleOf r1 s c1 = ruleOf r2 s c2 := by
  unfold ruleOf leftT rightT; rw [h1, h2]

theorem ruleJoin_congr {r1 r2 : List Char → List Char → Option (List Char)}
    {s c1 c2 : List Char} {c : Char} {flip : Bool} {mid : List Char}
    (h1 : r1 (splitFirst c s).1 c1 = r2 (splitFirst c s).1 c2)
    (h2 : r1 (splitFirst c s).2 c1 = r2 (splitFirst c s).2 c2) :
    ruleJoin r1 s c1 c flip mid = ruleJoin r2 s c2 c flip mid := by
  unfold ruleJoin leftT rightT; rw [h1, h2]

set_option maxHeartbeats 1600000 in
/-- Congruence for one unfolding of the translator body: two recursion
interpretations that agree on all strictly shorter inputs (under any contexts)
give the same result.  This is the formal content of the claim that every
recursive call of `translate_text` is on a strictly shorter string. -/
theorem tBody_congr {r1 r2 : List Char → List Char → Option (List Char)}
    (s c1 c2 : List Char)
    (h : ∀ x a b, x.length < s.length → r1 x a = r2 x b) :
    tBody r1 s c1 = tBody r2 s c2 := by
  unfold tBody
  by_cases h0 : (lookupT s).isSome = true
  · simp only [if_pos h0]
  · simp only [if_neg h0]
    by_cases h1 : "加载".toList <+: s
    · simp only [if_pos h1]
      exact prefixLowerRule_congr (h _ c1 c2 (drop_length_lt (by omega) (prefix_le h1 rfl)))
    · simp only [if_neg h1]
      by_cases h2 : "失败".toList <:+ s
      · simp only [if_pos h2]
        exact ruleFail_congr (h _ c1 c2 (take_sub_length_lt (by omega) (suffix_le h2 rfl)))
      · simp only [if_neg h2]
        by_cases h3 : "成功".toList <:+ s
        · simp only [if_pos h3]
          exact suffixRule_congr (h _ c1 c2 (take_sub_length_lt (by omega) (suffix_le h3 rfl)))
        · simp only [if_neg h3]
          by_cases h4 : "已".toList <+: s
          · simp only [if_pos h4]
          · simp only [if_neg h4]
            by_cases h5 : "中".toList <:+ s
            · simp only [if_pos h5]
            · simp only [if_neg h5]
              by_cases h6 : "未".toList <+: s
              · simp only [if_pos h6]
              · simp only [if_neg h6]
                by_cases h7 : "请".toList <+: s
                · simp only [if_pos h7]
                  exact prefixLowerRule_congr (h _ c1 c2 (drop_length_lt (by omega) (prefix_le h7 rfl)))
                · simp only [if_neg h7]
                  by_cases h8 : "暂无".toList <+: s
                  · simp only [if_pos h8]
                    exact prefixLowerRule_congr (h _ c1 c2 (drop_length_lt (by omega) (prefix_le h8 rfl)))
                  · simp only [if_neg h8]
                    by_cases h9 : "列表".toList <:+ s
                    · simp only [if_pos h9]
                      exact suffixRule_congr (h _ c1 c2 (take_sub_length_lt (by omega) (suffix_le h9 rfl)))
                    · simp only [if_neg h9]
                      by_cases h10 : "设置".toList <:+ s
                      · simp only [if_pos h10]
                        exact suffixRule_congr (h _ c1 c2 (take_sub_length_lt (by omega) (suffix_le h10 rfl)))
                      · simp only [if_neg h10]
                        by_cases h11 : "模式".toList <:+ s
                        · simp only [if_pos h11]
                          exact suffixRule_congr (h _ c1 c2 (take_sub_length_lt (by omega) (suffix_le h11 rfl)))
                        · simp only [if_neg h11]
                          by_cases h12 : "类型".toList <:+ s
                          · simp only [if_pos h12]
                            exact suffixRule_congr (h _ c1 c2 (take_sub_length_lt (by omega) (suffix_le h12 rfl)))
                          · simp only [if_neg h12]
                            by_cases h13 : "文件".toList <:+ s
                            · simp only [if_pos h13]
                              exact suffixRule_congr (h _ c1 c2 (take_sub_length_lt (by omega) (suffix_le h13 rfl)))
                            · simp only [if_neg h13]
                              by_cases h14 : "选择器".toList <:+ s
                              · simp only [if_pos h14]
                                exact suffixRule_congr (h _ c1 c2 (take_sub_length_lt (by omega) (suffix_le h14 rfl)))
                              · simp only [if_neg h14]
                                by_cases h15 : "字段".toList <:+ s
                                · simp only [if_pos h15]
                                  exact suffixRule_congr (h _ c1 c2 (take_sub_length_lt (by omega) (suffix_le h15 rfl)))
                                · simp only [if_neg h15]
                                  by_cases h16 : "路径".toList <:+ s
                                  · simp only [if_pos h16]
                                    exact suffixRule_congr (h _ c1 c2 (take_sub_length_lt (by omega) (suffix_le h16 rfl)))
                                  · simp only [if_neg h16]
                                    by_cases h17 : "选择".toList <+: s
                                    · simp only [if_pos h17]
                                      exact prefixLowerRule_congr (h _ c1 c2 (drop_length_lt (by omega) (prefix_le h17 rfl)))
                                    · simp only [if_neg h17]
                                      by_cases h18 : "打开".toList <+: s
                                      · simp only [if_pos h18]
                                        exact prefixLowerRule_congr (h _ c1 c2 (drop_length_lt (by omega) (prefix_le h18 rfl)))
                                      · simp only [if_neg h18]
                                        by_cases h19 : "名称".toList <:+ s
                                        · simp only [if_pos h19]
                                          exact suffixRule_congr (h _ c1 c2 (take_sub_length_lt (by omega) (suffix_le h19 rfl)))
                                        · simp only [if_neg h19]
                                          by_cases h20 : "信息".toList <:+ s
                                          · simp only [if_pos h20]
                                            exact suffixRule_congr (h _ c1 c2 (take_sub_length_lt (by omega) (suffix_le h20 rfl)))
                                          · simp only [if_neg h20]
                                            by_cases h21 : "错误".toList <:+ s
                                            · simp only [if_pos h21]
                                              exact suffixRule_congr (h _ c1 c2 (take_sub_length_lt (by omega) (suffix_le h21 rfl)))
                                            · simp only [if_neg h21]
                                              by_cases h22 : "包".toList <:+ s
                                              · simp only [if_pos h22]
                                                exact suffixRule_congr (h _ c1 c2 (take_sub_length_lt (by omega) (suffix_le h22 rfl)))
                                              · simp only [if_neg h22]
                                                by_cases h23 : "目录".toList <:+ s
                                                · simp only [if_pos h23]
                                                  exact suffixRule_congr (h _ c1 c2 (take_sub_length_lt (by omega) (suffix_le h23 rfl)))
                                                · simp only [if_neg h23]
                                                  by_cases h24 : "启用".toList <+: s
                                                  · simp only [if_pos h24]
                                                    exact prefixLowerRule_congr (h _ c1 c2 (drop_length_lt (by omega) (prefix_le h24 rfl)))
                                                  · simp only [if_neg h24]
                                                    by_cases h25 : "禁用".toList <+: s
                                                    · simp only [if_pos h25]
                                                      exact prefixLowerRule_congr (h _ c1 c2 (drop_length_lt (by omega) (prefix_le h25 rfl)))
                                                    · simp only [if_neg h25]
                                                      by_cases h26 : '的' ∈ s
                                                      · simp only [if_pos h26]
                                                        exact ruleOf_congr (h _ c1 c2 (splitFirst_fst_length_lt h26)) (h _ c1 c2 (splitFirst_snd_length_lt h26))
                                                      · simp only [if_neg h26]
                                                        by_cases h27 : '和' ∈ s
                                                        · simp only [if_pos h27]
                                                          exact ruleJoin_congr (h _ c1 c2 (splitFirst_fst_length_lt h27)) (h _ c1 c2 (splitFirst_snd_length_lt h27))
                                                        · simp only [if_neg h27]
                                                          by_cases h28 : '或' ∈ s
                                                          · simp only [if_pos h28]
                                                            exact ruleJoin_congr (h _ c1 c2 (splitFirst_fst_length_lt h28)) (h _ c1 c2 (splitFirst_snd_length_lt h28))
                                                          · simp only [if_neg h28]
                                                            by_cases h29 : '后' ∈ s ∧ ¬ ("后".toList <:+ s)
                                                            · simp only [if_pos h29]
                                                              exact ruleJoin_congr (h _ c1 c2 (splitFirst_fst_length_lt h29.1)) (h _ c1 c2 (splitFirst_snd_length_lt h29.1))
                                                            · simp only [if_neg h29]
                                                              by_cases h30 : '中' ∈ s ∧ ¬ ("中".toList <:+ s)
                                                              · simp only [if_pos h30]
                                                                exact ruleJoin_congr (h _ c1 c2 (splitFirst_fst_length_lt h30.1)) (h _ c1 c2 (splitFirst_snd_length_lt h30.1))
                                                              · simp only [if_neg h30]

/-- Any two fuel amounts strictly above the input length give the same result,
under any two contexts: the recursion of `translate_text` is well-founded on
the length of the text and never consults the fuel beyond it, and the
`context_key` argument is only passed along, never used. -/
theorem tF_stable : ∀ (L : Nat) (s : List Char), s.length = L →
    ∀ (n m : Nat) (c1 c2 : List Char), L < n → L < m → tF n s c1 = tF m s c2 := by
  intro L
  induction L using Nat.strong_induction_on with
  | _ L ih =>
    intro s hs n m c1 c2 hn hm
    cases n with
    | zero => omega
    | succ n' =>
      cases m with
      | zero => omega
      | succ m' =>
        show tBody (tF n') s c1 = tBody (tF m') s c2
        apply tBody_congr
        intro x a b hx
        exact ih x.length (by omega) x rfl n' m' a b (by omega) (by omega)

/-- Fuel beyond the input length is irrelevant: `tF` at any sufficient fuel
agrees with `translate_text`. -/
theorem tF_eq_translate {n : Nat} {s c : List Char} (h : s.length < n) :
    tF n s c = translate_text s c :=
  tF_stable s.length s rfl n (s.length + 1) c c h (by omega)

/-- `translate_text` ignores its `context_key` argument. -/
theorem translate_text_ctx (s c1 c2 : List Char) :
    translate_text s c1 = translate_text s c2 :=
  tF_stable s.length s rfl (s.length + 1) (s.length + 1) c1 c2 (by omega) (by omega)

/-! ### Properties of the marker-stripping replace -/

theorem removeMarkerF_of_not_infix :
    ∀ (n : Nat) (s : List Char), s.length ≤ n → ¬ (TODO_SP <:+: s) →
      removeMarkerF n s = s := by
  intro n
  induction n with
  | zero =>
    intro s hs _
    have : s = [] := List.eq_nil_of_length_eq_zero (by omega)
    subst this; rfl
  | succ n ih =>
    intro s hs hinf
    have hnp : ¬ (TODO_SP <+: s) := fun hp => hinf hp.isInfix
    cases s with
    | nil => simp [removeMarkerF, hnp]
    | cons c cs =>
      simp only [removeMarkerF, if_neg hnp]
      have hlen : cs.length ≤ n := by
        have := hs; simp only [List.length_cons] at this; omega
      have hci : ¬ (TODO_SP <:+: cs) := fun hc => hinf (List.infix_cons hc)
      rw [ih cs hlen hci]

/-- `str.replace` leaves a string without any occurrence of the pattern
unchanged. -/
theorem removeMarker_of_not_infix {s : List Char} (h : ¬ (TODO_SP <:+: s)) :
    removeMarker s = s :=
  removeMarkerF_of_not_infix s.length s (by omega) h

/-- On a value of the shape `marker ++ rest` whose remainder contains no
further occurrence of the pattern, `str.replace` returns exactly the
remainder. -/
theorem removeMarker_marker_append {rest : List Char} (h : ¬ (TODO_SP <:+: rest)) :
    removeMarker (TODO_SP ++ rest) = rest := by
  have h18 : TODO_SP.length = 18 := rfl
  have hL : (TODO_SP ++ rest).length = (17 + rest.length) + 1 := by
    rw [List.length_append, h18]; omega
  unfold removeMarker
  rw [hL]
  simp only [removeMarkerF, if_pos (List.prefix_append TODO_SP rest)]
  rw [List.drop_left]
  exact removeMarkerF_of_not_infix _ rest (by omega) h

/-! ### Python dict update -/

theorem dictSet_keys {α : Type} (st : List (List Char × α)) (k : List Char) (v : α)
    (hk : k ∈ st.map Prod.fst) :
    (dictSet st k v).map Prod.fst = st.map Prod.fst := by
  induction st with
  | nil => simp at hk
  | cons kv rest ih =>
    obtain ⟨k', v'⟩ := kv
    by_cases h : k' = k
    · simp [dictSet, h]
    · simp only [dictSet, if_neg h, List.map_cons]
      have hk' : k ∈ rest.map Prod.fst := by
        simp only [List.map_cons, List.mem_cons] at hk
        rcases hk with h1 | h2
        · exact absurd h1.symm h
        · exact h2
      rw [ih hk']

theorem dictSet_append_middle {α : Type} (pre rest : List (List Char × α)) (k : List Char)
    (v w : α) (hk : k ∉ pre.map Prod.fst) :
    dictSet (pre ++ (k, v) :: rest) k w = pre ++ (k, w) :: rest := by
  induction pre with
  | nil => simp [dictSet]
  | cons kv pre ih =>
    obtain ⟨k', v'⟩ := kv
    simp only [List.map_cons, List.mem_cons, not_or] at hk
    obtain ⟨h1, h2⟩ := hk
    have hne : ¬ (k' = k) := fun he => h1 he.symm
    simp [dictSet, hne, ih h2]

/-! ### Key preservation of the two mutating loops -/

theorem foldl_importStep_keys (tr : List (List Char × List Char)) :
    ∀ (l st : List (List Char × PyVal)),
      (∀ kv ∈ l, kv.1 ∈ st.map Prod.fst) →
      (l.foldl (importStep tr) st).map Prod.fst = st.map Prod.fst := by
  intro l
  induction l with
  | nil => intro st _; rfl
  | cons kv rest ih =>
    intro st hmem
    rw [List.foldl_cons]
    have hstep : (importStep tr st kv).map Prod.fst = st.map Prod.fst := by
      obtain ⟨k, v⟩ := kv
      cases v with
      | other n => rfl
      | str s2 =>
        simp only [importStep]
        by_cases hp : TODO17 <+: s2
        · rw [if_pos hp]
          cases hlk : tr.lookup (removeMarker s2) with
          | none => rfl
          | some t =>
            by_cases ht : t = []
            · simp [ht]
            · simp only [if_neg ht]
              exact dictSet_keys st k (.str t) (hmem (k, .str s2) (by simp))
        · rw [if_neg hp]
    have hmem' : ∀ kv2 ∈ rest, kv2.1 ∈ (importStep tr st kv).map Prod.fst := by
      intro kv2 h2
      rw [hstep]
      exact hmem kv2 (List.mem_cons_of_mem _ h2)
    rw [ih (importStep tr st kv) hmem', hstep]

theorem foldl_trStep_keys :
    ∀ (l : List (List Char × PyVal)) (st : List (List Char × PyVal)) (sec : List Char),
      (∀ kv ∈ l, kv.1 ∈ st.map Prod.fst) →
      ((l.foldl trStep (st, sec)).1).map Prod.fst = st.map Prod.fst := by
  intro l
  induction l with
  | nil => intro st sec _; rfl
  | cons kv rest ih =>
    intro st sec hmem
    rw [List.foldl_cons]
    have hstep : ((trStep (st, sec) kv).1).map Prod.fst = st.map Prod.fst := by
      obtain ⟨k, v⟩ := kv
      cases v with
      | other n => rfl
      | str s2 =>
        simp only [trStep]
        by_cases hp : TODO17 <+: s2
        · rw [if_pos hp]
          cases hlk : translate_text (removeMarker s2)
              (if "// ===".toList <+: k then k else sec) with
          | none => rfl
          | some t =>
            by_cases ht : t = []
            · simp [ht]
            · simp only [if_neg ht]
              exact dictSet_keys st k (.str t) (hmem (k, .str s2) (by simp))
        · rw [if_neg hp]
    have heq : trStep (st, sec) kv =
        ((trStep (st, sec) kv).1, if "// ===".toList <+: kv.1 then kv.1 else sec) := rfl
    rw [heq]
    have hmem' : ∀ kv2 ∈ rest, kv2.1 ∈ ((trStep (st, sec) kv).1).map Prod.fst := by
      intro kv2 h2
      rw [hstep]
      exact hmem kv2 (List.mem_cons_of_mem _ h2)
    rw [ih _ _ hmem', hstep]

theorem runImport_keys (tr : List (List Char × List Char)) (data : List (List Char × PyVal)) :
    (runImport tr data).map Prod.fst = data.map Prod.fst :=
  foldl_importStep_keys tr data data (fun _ h => List.mem_map_of_mem Prod.fst h)

theorem runTranslator_keys (data : List (List Char × PyVal)) :
    (runTranslator data).map Prod.fst = data.map Prod.fst :=
  foldl_trStep_keys data data [] (fun _ h => List.mem_map_of_mem Prod.fst h)

/-! ### Pointwise characterisation of the two loops (distinct keys) -/

theorem foldl_importStep_eq (tr : List (List Char × List Char)) :
    ∀ (l pre : List (List Char × PyVal)),
      (((pre ++ l).map Prod.fst)).Nodup →
      l.foldl (importStep tr) (pre ++ l) =
        pre ++ l.map (fun kv => (kv.1, importValue tr kv.2)) := by
  intro l
  induction l with
  | nil => intro pre _; simp
  | cons kv rest ih =>
    intro pre hnd
    obtain ⟨k, v⟩ := kv
    rw [List.foldl_cons]
    have hknotpre : k ∉ pre.map Prod.fst := by
      rw [List.map_append] at hnd
      have hdisj := List.disjoint_of_nodup_append hnd
      intro hkpre
      exact hdisj hkpre (by simp)
    have hstep : importStep tr (pre ++ (k, v) :: rest) (k, v) =
        pre ++ (k, importValue tr v) :: rest := by
      cases v with
      | other n => rfl
      | str s2 =>
        simp only [importStep, importValue]
        by_cases hp : TODO17 <+: s2
        · rw [if_pos hp, if_pos hp]
          cases hlk : tr.lookup (removeMarker s2) with
          | none => rfl
          | some t =>
            by_cases ht : t = []
            · simp [ht]
            · simp only [if_neg ht]
              exact dictSet_append_middle pre rest k (.str s2) (.str t) hknotpre
        · rw [if_neg hp, if_neg hp]
    rw [hstep]
    have hsplit : pre ++ (k, importValue tr v) :: rest =
        (pre ++ [(k, importValue tr v)]) ++ rest := by simp
    have hnd2 : (((pre ++ [(k, importValue tr v)]) ++ rest).map Prod.fst).Nodup := by
      simpa using hnd
    rw [hsplit, ih (pre ++ [(k, importValue tr v)]) hnd2]
    simp

theorem runImport_eq_map (tr : List (List Char × List Char)) (data : List (List Char × PyVal))
    (h : (data.map Prod.fst).Nodup) :
    runImport tr data = data.map (fun kv => (kv.1, importValue tr kv.2)) := by
  have := foldl_importStep_eq tr data [] (by simpa using h)
  simpa using this

theorem foldl_trStep_eq :
    ∀ (l pre : List (List Char × PyVal)) (sec : List Char),
      (((pre ++ l).map Prod.fst)).Nodup →
      (l.foldl trStep (pre ++ l, sec)).1 = pre ++ mapTrans sec l := by
  intro l
  induction l with
  | nil => intro pre sec _; simp [mapTrans]
  | cons kv rest ih =>
    intro pre sec hnd
    obtain ⟨k, v⟩ := kv
    rw [List.foldl_cons]
    have hknotpre : k ∉ pre.map Prod.fst := by
      rw [List.map_append] at hnd
      have hdisj := List.disjoint_of_nodup_append hnd
      intro hkpre
      exact hdisj hkpre (by simp)
    have hstep : trStep (pre ++ (k, v) :: rest, sec) (k, v) =
        (pre ++ (k, translateStep (if "// ===".toList <+: k then k else sec) v) :: rest,
          if "// ===".toList <+: k then k else sec) := by
      cases v with
      | other n => rfl
      | str s2 =>
        simp only [trStep, translateStep]
        by_cases hp : TODO17 <+: s2
        · rw [if_pos hp, if_pos hp]
          cases hlk : translate_text (removeMarker s2)
              (if "// ===".toList <+: k then k else sec) with
          | none => rfl
          | some t =>
            by_cases ht : t = []
            · simp [ht]
            · simp only [if_neg ht]
              rw [dictSet_append_middle pre rest k (.str s2) (.str t) hknotpre]
        · rw [if_neg hp, if_neg hp]
    rw [hstep]
    have hsplit : pre ++ (k, translateStep (if "// ===".toList <+: k then k else sec) v) :: rest =
        (pre ++ [(k, translateStep (if "// ===".toList <+: k then k else sec) v)]) ++ rest := by
      simp
    have hnd2 : ((((pre ++ [(k, translateStep (if "// ===".toList <+: k then k else sec) v)]))
        ++ rest).map Prod.fst).Nodup := by
      simpa using hnd
    rw [hsplit, ih _ _ hnd2]
    simp [mapTrans]

theorem runTranslator_eq_mapTrans (data : List (List Char × PyVal))
    (h : (data.map Prod.fst).Nodup) :
    runTranslator data = mapTrans [] data := by
  have := foldl_trStep_eq data [] [] (by simpa using h)
  simpa using this

theorem mapTrans_keys (sec : List Char) (l : List (List Char × PyVal)) :
    (mapTrans sec l).map Prod.fst = l.map Prod.fst := by
  induction l generalizing sec with
  | nil => rfl
  | cons kv rest ih => simp [mapTrans, ih]

/-! ### Idempotence of the translator on stable catalogs -/

theorem translateStep_idem (sec : List Char) (v : PyVal) (hok : resolvedOk v = true) :
    translateStep sec (translateStep sec v) = translateStep sec v := by
  cases v with
  | other n => rfl
  | str s =>
    by_cases hp : TODO17 <+: s
    · have hctx : translate_text (removeMarker s) sec = translate_text (removeMarker s) [] :=
        translate_text_ctx _ _ _
      cases hres : translate_text (removeMarker s) [] with
      | none =>
        have hinner : translateStep sec (.str s) = .str s := by
          simp only [translateStep, if_pos hp, hctx, hres]
        rw [hinner]; exact hinner
      | some t =>
        by_cases ht : t = []
        · have hinner : translateStep sec (.str s) = .str s := by
            simp only [translateStep, if_pos hp, hctx, hres, if_pos ht]
          rw [hinner]; exact hinner
        · have hinner : translateStep sec (.str s) = .str t := by
            simp only [translateStep, if_pos hp, hctx, hres, if_neg ht]
          have hnp : ¬ (TODO17 <+: t) := by
            have hthis := hok
            simp only [resolvedOk] at hthis
            rw [hres] at hthis
            have hps : TODO17.isPrefixOf s = true := List.isPrefixOf_iff_prefix.mpr hp
            have hte : t.isEmpty = false := by
              cases t with
              | nil => exact absurd rfl ht
              | cons a as => rfl
            simp only [hps, Bool.not_true, Bool.false_or, hte] at hthis
            intro hcon
            rw [List.isPrefixOf_iff_prefix.mpr hcon] at hthis
            simp at hthis
          have houter : translateStep sec (.str t) = .str t := by
            simp only [translateStep, if_neg hnp]
          rw [hinner]; exact houter
    · have hinner : translateStep sec (.str s) = .str s := by
        simp only [translateStep, if_neg hp]
      rw [hinner]; exact hinner

theorem mapTrans_idem (l : List (List Char × PyVal)) :
    ∀ (sec : List Char), (∀ kv ∈ l, resolvedOk kv.2 = true) →
      mapTrans sec (mapTrans sec l) = mapTrans sec l := by
  induction l with
  | nil => intro sec _; rfl
  | cons kv rest ih =>
    intro sec hok
    simp only [mapTrans]
    rw [translateStep_idem _ _ (hok kv (by simp))]
    rw [ih _ (fun kv2 h2 => hok kv2 (List.mem_cons_of_mem _ h2))]

/-! ### The translator loop ignores the section state -/

theorem foldl_trStep_sec :
    ∀ (l : List (List Char × PyVal)) (st : List (List Char × PyVal)) (sec1 sec2 : List Char),
      (l.foldl trStep (st, sec1)).1 = (l.foldl trStep (st, sec2)).1 := by
  intro l
  induction l with
  | nil => intro st sec1 sec2; rfl
  | cons kv rest ih =>
    intro st sec1 sec2
    rw [List.foldl_cons, List.foldl_cons]
    have hd : (trStep (st, sec1) kv).1 = (trStep (st, sec2) kv).1 := by
      obtain ⟨k, v⟩ := kv
      cases v with
      | other n => rfl
      | str s2 =>
        simp only [trStep]
        by_cases hp : TODO17 <+: s2
        · rw [if_pos hp, if_pos hp]
          rw [translate_text_ctx (removeMarker s2)
            (if "// ===".toList <+: k then k else sec1)
            (if "// ===".toList <+: k then k else sec2)]
        · rw [if_neg hp, if_neg hp]
    calc (rest.foldl trStep (trStep (st, sec1) kv)).1
        = (rest.foldl trStep ((trStep (st, sec1) kv).1, (trStep (st, sec1) kv).2)).1 := rfl
      _ = (rest.foldl trStep ((trStep (st, sec2) kv).1, (trStep (st, sec2) kv).2)).1 := by
            rw [hd]; exact ih _ _ _
      _ = (rest.foldl trStep (trStep (st, sec2) kv)).1 := rfl

/-! ### Claims -/

/-- C1 (amended).  All three tools use the identical pending test, and a value
is treated as pending iff it is a string beginning with the 17-character
sentinel literal `[TODO: Translate]` itself — the separating space is NOT part
of the test (see `c1_pending_space_cex`). -/
theorem c1_pending_characterization (v : PyVal) :
    (is_pending_extract v ↔ is_pending_import v) ∧
    (is_pending_import v ↔ is_pending_translate v) ∧
    (is_pending_translate v ↔ ∃ s, v = .str s ∧ TODO17 <+: s) := by
  refine ⟨?_, ?_, ?_⟩
  · cases v <;> exact Iff.rfl
  · cases v <;> exact Iff.rfl
  · cases v with
    | str s =>
      constructor
      · intro h; exact ⟨s, rfl, h⟩
      · rintro ⟨s', he, h⟩
        injection he with he2
        subst he2
        exact h
    | other n =>
      constructor
      · intro h; exact False.elim h
      · rintro ⟨s', he, h⟩
        simp at he

/-- C1 (counterexample).  The string `"[TODO: Translate]x"` is treated as
pending by the tools although it does not begin with the sentinel followed by
a space, refuting the claim as stated. -/
theorem c1_pending_space_cex :
    is_pending_translate (.str "[TODO: Translate]x".toList) ∧
      ¬ (TODO_SP <+: "[TODO: Translate]x".toList) := by
  decide

/-- C2 (counterexample).  On the catalog `{"c": "[TODO: Translate] 请求和响应"}`
the Heuristic Translator does NOT produce `{"c": "Request and Response"}`:
the 请-prefix rule fires before the 和-particle rule. -/
theorem c2_request_response_cex :
    runTranslator [("c".toList, .str "[TODO: Translate] 请求和响应".toList)] ≠
      [("c".toList, .str "Request and Response".toList)] := by
  decide

/-- C2 (amended).  On `{"c": "[TODO: Translate] 请求和响应"}` the translator
produces `{"c": "Please 求 and response"}`: the 请-prefix rule fires first
(请求和响应 starts with 请), recursing on 求和响应, which splits on 和 into
求 (unresolved, kept raw) and 响应 → Response; the final result is lower-cased
and prefixed with Please by the 请 rule. -/
theorem c2_request_response_amended :
    runTranslator [("c".toList, .str "[TODO: Translate] 请求和响应".toList)] =
      [("c".toList, .str "Please 求 and response".toList)] := by
  decide

/-- C3 (counterexample).  源 text 模型的密钥 reaches the possessive rule with
both segments recursively resolved (模型 → Model, 密钥 → Key), yet the result
is assembled as `"Model's Key"`, not with the `"{right} of {left}"` template
(`"Key of Model"`): the right segment 密钥 is not in the closed noun set, and
the rule then uses the `"{left}'s {right}"` template instead. -/
theorem c3_possessive_cex :
    translate_text "模型的密钥".toList [] = some ("Model".toList ++ aposC :: "s Key".toList) ∧
    translate_text "模型".toList [] = some "Model".toList ∧
    translate_text "密钥".toList [] = some "Key".toList ∧
    translate_text "模型的密钥".toList [] ≠
      some ("Key".toList ++ " of ".toList ++ "Model".toList) := by
  refine ⟨by decide, by decide, by decide, by decide⟩

/-- C3 (amended).  For every source text that reaches the possessive rule (no
dictionary match and no earlier rule applies, 的 occurs), the result is
`ruleOf translate_text s ctx`: the template `"{right} of {left}"` is used
exactly when the right segment is in the closed noun set
{值, 内容, 配置, 设置, 信息, 状态, 名称, 类型, 列表, 文件}, and otherwise the
template `"{left}'s {right}"` is used, in both cases from the recursively
resolved segments. -/
theorem c3_possessive_template (s ctx : List Char)
    (hd : lookupT s = none)
    (h1 : ¬ ("加载".toList <+: s)) (h2 : ¬ ("失败".toList <:+ s))
    (h3 : ¬ ("成功".toList <:+ s)) (h4 : ¬ ("已".toList <+: s))
    (h5 : ¬ ("中".toList <:+ s)) (h6 : ¬ ("未".toList <+: s))
    (h7 : ¬ ("请".toList <+: s)) (h8 : ¬ ("暂无".toList <+: s))
    (h9 : ¬ ("列表".toList <:+ s)) (h10 : ¬ ("设置".toList <:+ s))
    (h11 : ¬ ("模式".toList <:+ s)) (h12 : ¬ ("类型".toList <:+ s))
    (h13 : ¬ ("文件".toList <:+ s)) (h14 : ¬ ("选择器".toList <:+ s))
    (h15 : ¬ ("字段".toList <:+ s)) (h16 : ¬ ("路径".toList <:+ s))
    (h17 : ¬ ("选择".toList <+: s)) (h18 : ¬ ("打开".toList <+: s))
    (h19 : ¬ ("名称".toList <:+ s)) (h20 : ¬ ("信息".toList <:+ s))
    (h21 : ¬ ("错误".toList <:+ s)) (h22 : ¬ ("包".toList <:+ s))
    (h23 : ¬ ("目录".toList <:+ s)) (h24 : ¬ ("启用".toList <+: s))
    (h25 : ¬ ("禁用".toList <+: s)) (h26 : '的' ∈ s) :
    translate_text s ctx = ruleOf translate_text s ctx := by
  show tBody (tF s.length) s ctx = ruleOf translate_text s ctx
  have hds : ¬ ((lookupT s).isSome = true) := by rw [hd]; simp
  unfold tBody
  rw [if_neg hds, if_neg h1, if_neg h2, if_neg h3, if_neg h4, if_neg h5, if_neg h6,
    if_neg h7, if_neg h8, if_neg h9, if_neg h10, if_neg h11, if_neg h12, if_neg h13,
    if_neg h14, if_neg h15, if_neg h16, if_neg h17, if_neg h18, if_neg h19, if_neg h20,
    if_neg h21, if_neg h22, if_neg h23, if_neg h24, if_neg h25, if_pos h26]
  exact ruleOf_congr (tF_eq_translate (splitFirst_fst_length_lt h26))
    (tF_eq_translate (splitFirst_snd_length_lt h26))

/-- Witness for C3 (amended) at the concrete text 模型的密钥. -/
theorem c3_possessive_template_witness :
    translate_text "模型的密钥".toList [] = ruleOf translate_text "模型的密钥".toList [] :=
  c3_possessive_template "模型的密钥".toList [] (by decide) (by decide) (by decide)
    (by decide) (by decide) (by decide) (by decide) (by decide) (by decide) (by decide)
    (by decide) (by decide) (by decide) (by decide) (by decide) (by decide) (by decide)
    (by decide) (by decide) (by decide) (by decide) (by decide) (by decide) (by decide)
    (by decide) (by decide) (by decide)

/-- C4.  The Import Tool replaces an entry's value exactly when the entry is a
pending string whose extracted source text maps to a non-empty translation;
every other entry (non-pending, source text absent, or empty translation)
keeps its exact previous value.  On catalogs with distinct keys (as every JSON
object parsed by the scripts has) the whole apply loop is this per-entry
decision applied pointwise. -/
theorem c4_import_frame (tr : List (List Char × List Char)) (s : List Char) :
    (∀ t, TODO17 <+: s → tr.lookup (removeMarker s) = some t → t ≠ [] →
      importValue tr (.str s) = .str t) ∧
    (¬ (TODO17 <+: s) → importValue tr (.str s) = .str s) ∧
    (tr.lookup (removeMarker s) = none → importValue tr (.str s) = .str s) ∧
    (tr.lookup (removeMarker s) = some [] → importValue tr (.str s) = .str s) ∧
    (∀ n, importValue tr (.other n) = .other n) ∧
    (∀ data, (data.map Prod.fst).Nodup →
      runImport tr data = data.map (fun kv => (kv.1, importValue tr kv.2))) := by
  refine ⟨?_, ?_, ?_, ?_, fun n => rfl, fun data h => runImport_eq_map tr data h⟩
  · intro t hp hlk ht
    simp only [importValue, if_pos hp, hlk, if_neg ht]
  · intro hp
    simp only [importValue, if_neg hp]
  · intro hlk
    by_cases hp : TODO17 <+: s
    · simp only [importValue, if_pos hp, hlk]
    · simp only [importValue, if_neg hp]
  · intro hlk
    by_cases hp : TODO17 <+: s
    · simp [importValue, if_pos hp, hlk]
    · simp only [importValue, if_neg hp]

/-- Witness for C4 at concrete inputs covering each case. -/
theorem c4_import_frame_witness :
    importValue [("加载".toList, "Load".toList)] (.str "[TODO: Translate] 加载".toList) =
      .str "Load".toList ∧
    importValue [("加载".toList, "Load".toList)] (.str "hello".toList) =
      .str "hello".toList ∧
    importValue [("加载".toList, "Load".toList)] (.str "[TODO: Translate] 你".toList) =
      .str "[TODO: Translate] 你".toList ∧
    importValue [("加载".toList, "Load".toList)] (.other 3) = .other 3 ∧
    runImport [("加载".toList, "Load".toList)]
        [("a".toList, .str "[TODO: Translate] 加载".toList)] =
      [("a".toList, .str "Load".toList)] := by
  refine ⟨?_, ?_, ?_, ?_, ?_⟩
  · exact (c4_import_frame _ _).1 "Load".toList (by decide) (by decide) (by decide)
  · exact (c4_import_frame _ "hello".toList).2.1 (by decide)
  · exact (c4_import_frame _ _).2.2.1 (by decide)
  · exact (c4_import_frame [("加载".toList, "Load".toList)] []).2.2.2.2.1 3
  · exact Eq.trans ((c4_import_frame [("加载".toList, "Load".toList)] []).2.2.2.2.2
      [("a".toList, .str "[TODO: Translate] 加载".toList)] (by decide)) (by decide)

/-- C5 (counterexample).  The Heuristic Translator is not idempotent: on this
catalog the first run resolves the entry to `"[TODO: Translate] 加载"` (the
已-rule returns its raw remainder, and the single-pass `str.replace` left an
embedded marker), which is itself pending and is resolved to `"Load"` by a
second run. -/
theorem c5_not_idempotent_cex :
    runTranslator (runTranslator
      [("k".toList,
        .str "[TODO: Translate] 已[TODO: [TODO: Translate] Translate] 加载".toList)]) ≠
    runTranslator
      [("k".toList,
        .str "[TODO: Translate] 已[TODO: [TODO: Translate] Translate] 加载".toList)] := by
  decide

/-- C5 (amended).  On catalogs with distinct keys in which no pending value
resolves to a string that itself begins with the sentinel (`resolvedOk`),
running the Heuristic Translator twice equals running it once. -/
theorem c5_idempotent_amended (data : List (List Char × PyVal))
    (hnd : (data.map Prod.fst).Nodup)
    (hok : ∀ kv ∈ data, resolvedOk kv.2 = true) :
    runTranslator (runTranslator data) = runTranslator data := by
  have h1 : runTranslator data = mapTrans [] data := runTranslator_eq_mapTrans data hnd
  have hnd1 : ((runTranslator data).map Prod.fst).Nodup := by
    rw [runTranslator_keys]; exact hnd
  have h2 : runTranslator (runTranslator data) = mapTrans [] (runTranslator data) :=
    runTranslator_eq_mapTrans _ hnd1
  rw [h2, h1, mapTrans_idem data [] hok]

/-- Witness for C5 (amended) on a small concrete catalog. -/
theorem c5_idempotent_amended_witness :
    runTranslator (runTranslator
      [("a".toList, .str "[TODO: Translate] 加载".toList),
       ("b".toList, .str "hello".toList), ("c".toList, .other 7)]) =
    runTranslator
      [("a".toList, .str "[TODO: Translate] 加载".toList),
       ("b".toList, .str "hello".toList), ("c".toList, .other 7)] :=
  c5_idempotent_amended _ (by decide) (by decide)

/-- C6 (counterexample).  Extraction is `str.replace` of every occurrence, not
removal of the leading marker only: on
`"[TODO: Translate] a[TODO: Translate] b"` the code extracts `"ab"`, whereas
the substring following the leading marker and space is
`"a[TODO: Translate] b"`. -/
theorem c6_extract_cex :
    removeMarker "[TODO: Translate] a[TODO: Translate] b".toList = "ab".toList ∧
    removeMarker "[TODO: Translate] a[TODO: Translate] b".toList ≠
      "a[TODO: Translate] b".toList := by
  decide

/-- C6 (amended).  The extracted source text equals the substring following
the marker and its separating space only when that remainder contains no
further occurrence of `"[TODO: Translate] "`; in general every occurrence is
removed (single left-to-right pass), and a string without any occurrence is
returned unchanged. -/
theorem c6_extract_amended (rest : List Char) (h : ¬ (TODO_SP <:+: rest)) :
    removeMarker (TODO_SP ++ rest) = rest ∧ removeMarker rest = rest :=
  ⟨removeMarker_marker_append h, removeMarker_of_not_infix h⟩

/-- Witness for C6 (amended) at a concrete remainder. -/
theorem c6_extract_amended_witness :
    removeMarker (TODO_SP ++ "请求".toList) = "请求".toList ∧
    removeMarker "请求".toList = "请求".toList :=
  c6_extract_amended "请求".toList (by decide)

/-- C7.  When the side artifact is missing, the Import Tool exits with status 1
(non-zero) after printing the instruction to run the extraction script first,
and writes no catalog; when the artifact exists, the error branch is not taken:
the exit status is 0 and the applied catalog is written. -/
theorem c7_missing_artifact (p : List Char) (data : List (List Char × PyVal)) :
    (importTool p none data).exitCode = 1 ∧
    (importTool p none data).exitCode ≠ 0 ∧
    (importTool p none data).written = none ∧
    "Run extract_remaining_todos.py first".toList ∈ (importTool p none data).messages ∧
    (∀ tr, (importTool p (some tr) data).exitCode = 0 ∧
      (importTool p (some tr) data).written = some (runImport tr data)) := by
  refine ⟨rfl, by simp [importTool], rfl, by simp [importTool], fun tr => ⟨rfl, rfl⟩⟩

/-- C8.  `translate_text` terminates on every input: the recursion is
well-founded on the length of the text, so any fuel beyond the length gives
the same result, and the total function satisfies the recursive equation of
the source body. -/
theorem c8_translate_terminates (n : Nat) (s ctx : List Char) (h : s.length < n) :
    tF n s ctx = translate_text s ctx ∧
    translate_text s ctx = tBody translate_text s ctx := by
  constructor
  · exact tF_eq_translate h
  · show tBody (tF s.length) s ctx = tBody translate_text s ctx
    exact tBody_congr s ctx ctx
      (fun x a b hx => tF_stable x.length x rfl s.length (x.length + 1) a b (by omega) (by omega))

/-- Witness for C8 at a concrete input and fuel. -/
theorem c8_translate_terminates_witness :
    tF 6 "请求和响应".toList [] = translate_text "请求和响应".toList [] ∧
    translate_text "请求和响应".toList [] = tBody translate_text "请求和响应".toList [] :=
  c8_translate_terminates 6 "请求和响应".toList [] (by decide)

/-- C9.  Both mutating tools preserve the catalog's key list exactly (same
keys, same order; no key added or removed). -/
theorem c9_keys_preserved (tr : List (List Char × List Char))
    (data : List (List Char × PyVal)) :
    (runImport tr data).map Prod.fst = data.map Prod.fst ∧
    (runTranslator data).map Prod.fst = data.map Prod.fst :=
  ⟨runImport_keys tr data, runTranslator_keys data⟩

/-- C10.  `translate_text` is independent of its `context_key` argument, and
consequently the section state threaded by the translator's main loop has no
influence on the produced catalog: the loop's dict result is the same under
any two section states, and `runTranslator` equals the same fold started from
any initial section. -/
theorem c10_context_independent :
    (∀ s c1 c2 : List Char, translate_text s c1 = translate_text s c2) ∧
    (∀ (data st : List (List Char × PyVal)) (sec1 sec2 : List Char),
      (data.foldl trStep (st, sec1)).1 = (data.foldl trStep (st, sec2)).1) ∧
    (∀ (data : List (List Char × PyVal)) (sec : List Char),
      runTranslator data = (data.foldl trStep (data, sec)).1) :=
  ⟨translate_text_ctx, foldl_trStep_sec,
    fun data sec => foldl_trStep_sec data data [] sec⟩
